import Mathlib

/-!
Verification of the DMX timeline generator (`src/dmx_analyzer`).

The Python sources are shallowly embedded: Python `float` arithmetic is
modelled by `ℚ`, Python `int` by `ℤ`/`ℕ`, Python strings by `String`
(reasoned about through their `List Char` data), fallible operations
(`int(...)` parsing, index errors, pydantic validation, missing
attributes) by `Option`/`Except`.
-/

namespace DMX

/-- The character `'0' + n` (only used with `n < 10`). -/
def digitChar (n : ℕ) : Char := Char.ofNat (48 + n)

/-- Decimal rendering of a natural number, as Python's `str`/f-string
formatting produces it (`f"{n}"`). -/
def natToChars (n : ℕ) : List Char :=
  if h : n < 10 then [digitChar n]
  else natToChars (n / 10) ++ [digitChar (n % 10)]
decreasing_by
  exact Nat.div_lt_self (by omega) (by omega)

/-- Decimal rendering of an integer (`f"{i}"`). -/
def intToChars (i : ℤ) : List Char :=
  if i < 0 then '-' :: natToChars (-i).toNat else natToChars i.toNat

/-- Python's `f"{i:02d}"`: left-pad with `'0'` to width two. -/
def pad2 (i : ℤ) : List Char :=
  if 0 ≤ i ∧ i < 10 then '0' :: natToChars i.toNat else intToChars i

/-- Numeric value of a decimal digit character. -/
def digitVal (c : Char) : ℕ := c.toNat - 48

/-- Value of a string of decimal digits (most significant first). -/
def digitsVal (l : List Char) : ℕ := l.foldl (fun a c => 10 * a + digitVal c) 0

/-- Python's `int(s)` on a string: an optional single sign followed by a
nonempty run of decimal digits; anything else raises `ValueError`
(modelled as `none`).  Python additionally strips surrounding whitespace
and allows `_` separators; neither can occur in the strings this
codebase feeds to `int`, and they are not modelled. -/
def pyIntChars : List Char → Option ℤ
  | [] => none
  | c :: rest =>
    if c = '-' then
      if rest ≠ [] ∧ rest.all Char.isDigit then some (-(digitsVal rest : ℤ)) else none
    else if c = '+' then
      if rest ≠ [] ∧ rest.all Char.isDigit then some (digitsVal rest : ℤ) else none
    else
      if (c :: rest).all Char.isDigit then some (digitsVal (c :: rest) : ℤ) else none

/-- Python's `int(s)` (see `pyIntChars`). -/
def pyInt (s : String) : Option ℤ := pyIntChars s.data

/-- Python's `s.split(sep)` for a single-character separator, on the
character list.  `[].split` of an empty string yields `[""]`. -/
def pySplitChars (sep : Char) : List Char → List (List Char)
  | [] => [[]]
  | c :: rest =>
    let r := pySplitChars sep rest
    if c = sep then [] :: r
    else
      match r with
      | [] => [[c]]
      | h :: t => (c :: h) :: t

/-- Python's `s.split(sep)` for a single-character separator. -/
def pySplit (sep : Char) (s : String) : List String :=
  (pySplitChars sep s.data).map fun l => ⟨l⟩

/-- Python float `a // b` (floor division). -/
def pyFloorDiv (a b : ℚ) : ℚ := ⌊a / b⌋

/-- Python float `a % b` (sign follows the divisor; here only used with
positive divisors): `a - b * (a // b)`. -/
def pyMod (a b : ℚ) : ℚ := a - b * ⌊a / b⌋

/-- Python `int(x)` on a float: truncation toward zero. -/
def pyTrunc (q : ℚ) : ℤ := if 0 ≤ q then ⌊q⌋ else -⌊-q⌋

/-- Embeds `TimelineGenerator._format_time` (timeline_generator.py:363) and the
identical `SpectacularTimelineGenerator._format_time`
(spectacular_timeline_generator.py:513):
`f"{hours}:{minutes:02d}:{whole_secs:02d}.{millisecs}"`. -/
def format_time (seconds : ℚ) : String :=
  let hours : ℤ := pyTrunc (pyFloorDiv seconds 3600)
  let minutes : ℤ := pyTrunc (pyFloorDiv (pyMod seconds 3600) 60)
  let secs : ℚ := pyMod seconds 60
  let whole_secs : ℤ := pyTrunc secs
  let millisecs : ℤ := pyTrunc ((secs - (whole_secs : ℚ)) * 10)
  ⟨intToChars hours ++ ':' :: pad2 minutes ++ ':' :: pad2 whole_secs
    ++ '.' :: intToChars millisecs⟩

/-- Embeds `TimelineGenerator._format_duration`: delegates to `_format_time`. -/
def format_duration (seconds : ℚ) : String := format_time seconds

/-- Embeds `TimelineGenerator._time_to_seconds` (timeline_generator.py:393) and
the identical `SpectacularTimelineGenerator._time_to_seconds`.  The
Python body indexes `parts[0..2]` with no length check, so fewer than
three colon components raise `IndexError` (`none`); components past the
third are ignored.  A failing `int(...)` raises `ValueError` (`none`). -/
def time_to_seconds (time_str : String) : Option ℚ :=
  match pySplit ':' time_str with
  | p0 :: p1 :: p2 :: _ => do
    let hours ← pyInt p0
    let minutes ← pyInt p1
    match pySplit '.' p2 with
    | s0 :: rest => do
      let seconds ← pyInt s0
      let decimal : ℚ ←
        match rest with
        | [] => pure 0
        | d :: _ => do
          let dv ← pyInt d
          pure ((dv : ℚ) / 10)
      pure ((hours : ℚ) * 3600 + (minutes : ℚ) * 60 + (seconds : ℚ) + decimal)
    | [] => none
  | _ => none

/-- Embeds `DMXEvent.validate_start_time` (models.py:71): splits on `':'`,
requires exactly three components, parses the third on `'.'`; when the
split on `'.'` yields exactly two parts the fractional part is parsed as
`milliseconds`, otherwise `milliseconds = 0`; then range-checks
`0 ≤ hours ≤ 23`, `0 ≤ minutes ≤ 59`, `0 ≤ seconds ≤ 59`,
`0 ≤ milliseconds ≤ 999`.  Any parse failure or range failure raises
(`false`). -/
def validate_start_time (v : String) : Bool :=
  match pySplit ':' v with
  | [p0, p1, p2] =>
    match pyInt p0, pyInt p1 with
    | some hours, some minutes =>
      let sec_parts := pySplit '.' p2
      match sec_parts.head? >>= pyInt with
      | some seconds =>
        let ms : Option ℤ :=
          if sec_parts.length = 2 then sec_parts.getD 1 "" |> pyInt else some 0
        match ms with
        | some milliseconds =>
          decide (0 ≤ hours ∧ hours ≤ 23) && decide (0 ≤ minutes ∧ minutes ≤ 59)
            && decide (0 ≤ seconds ∧ seconds ≤ 59)
            && decide (0 ≤ milliseconds ∧ milliseconds ≤ 999)
        | none => false
      | none => false
    | _, _ => false
  | _ => false

/-! ### The shape of formatted time strings -/

/-- The shape of every string `_format_time` produces for a nonnegative
input: unpadded hours, zero-padded minutes and seconds, one fractional
digit. -/
def renderTime (h m s d : ℕ) : String :=
  ⟨natToChars h ++ ':' :: pad2 (m : ℤ) ++ ':' :: pad2 (s : ℤ) ++ '.' :: natToChars d⟩

/-! ### Data model (models.py) -/

/-- Embeds `SpeedType` (models.py:13): `BPM_BASED = 1`, `PERCENTAGE = 2`. -/
inductive SpeedType where
  | bpm_based
  | percentage
deriving DecidableEq, Repr

/-- Embeds `SpeedType.value`. -/
def SpeedType.value : SpeedType → ℤ
  | .bpm_based => 1
  | .percentage => 2

/-- Embeds `DMXEvent` (models.py:55).  Optional fields are `Option`; the record
holds already-validated data (see `mkDMXEvent` for construction). -/
structure DMXEvent where
  timeline_index : ℤ
  start_time : String
  path : String
  length : Option String := none
  speed : ℤ := 100
  speed_type : SpeedType := .percentage
  fade_in : Option ℤ := none
  fade_out : Option ℤ := none
  bpm : Option ℤ := none
  volume : Option ℤ := none
deriving DecidableEq, Repr

/-- Pydantic construction of a `DMXEvent`: the `start_time` validator
(models.py:71) and the `speed` bounds `ge=1, le=100` (models.py:62) must
hold, otherwise construction raises `ValidationError` (`Except.error`). -/
def mkDMXEvent (e : DMXEvent) : Except String DMXEvent :=
  if ¬validate_start_time e.start_time then
    .error ("ValidationError: start_time")
  else if ¬(1 ≤ e.speed ∧ e.speed ≤ 100) then
    .error ("ValidationError: speed")
  else
    .ok e

/-- Embeds `DMXFixture` (models.py:44). -/
structure DMXFixture where
  id : ℤ
  name : String
  address : ℤ
  model : String
  group : String
  channels : ℤ
deriving DecidableEq, Repr

/-- Embeds `DMXTimeline` (models.py:105) with its field defaults. -/
structure DMXTimeline where
  version : String := "0.2"
  max_time : String := "0:30:00"
  light_timelines : ℕ := 10
  media_timelines : ℕ := 1
  show_waveform : Bool := true
  audio_file : Option String := none
  audio_length : Option String := none
  events : List DMXEvent := []
  fixtures : List DMXFixture := []

/-- Embeds `DMXTimeline.add_event` (models.py:120): append. -/
def DMXTimeline.add_event (tl : DMXTimeline) (e : DMXEvent) : DMXTimeline :=
  { tl with events := tl.events ++ [e] }

/-- Embeds `DMXTimeline.get_events_at_time` (models.py:124): string-equality scan. -/
def DMXTimeline.get_events_at_time (tl : DMXTimeline) (time_str : String) :
    List DMXEvent :=
  tl.events.filter fun e => e.start_time = time_str

/-- Python truthiness of an optional string (`if self.audio_file and
self.audio_length:` — `None` and `""` are falsy). -/
def strTruthy : Option String → Bool
  | none => false
  | some s => !s.isEmpty

/-- Python truthiness of an optional int (`if event.fade_in:` — `None`
and `0` are falsy). -/
def intTruthy : Option ℤ → Bool
  | none => false
  | some n => n != 0

/-- The serialized lines of one event section
(models.py:159-177, loop body of `to_tml_format`). -/
def eventLines (i : ℕ) (e : DMXEvent) : List String :=
  ["[Event_" ++ (⟨natToChars i⟩ : String) ++ "]",
   "TimeLineIndex = " ++ (⟨intToChars e.timeline_index⟩ : String),
   "StartTime = " ++ e.start_time,
   "Path = " ++ e.path]
  ++ (match e.length with
      | some l => if l.isEmpty then [] else ["Length = " ++ l]
      | none => [])
  ++ (if intTruthy e.fade_in then
        ["FadeIn = " ++ (⟨intToChars (e.fade_in.getD 0)⟩ : String)] else [])
  ++ (if intTruthy e.fade_out then
        ["FadeOut = " ++ (⟨intToChars (e.fade_out.getD 0)⟩ : String)] else [])
  ++ (if intTruthy e.bpm then
        ["BPM = " ++ (⟨intToChars (e.bpm.getD 0)⟩ : String)] else [])
  ++ (match e.volume with
      | some v => ["Volume = " ++ (⟨intToChars v⟩ : String)]
      | none => [])
  ++ ["Speed = " ++ (⟨intToChars e.speed⟩ : String),
      "SpeedType = " ++ (⟨intToChars e.speed_type.value⟩ : String)]

/-- Embeds `for i, event in enumerate(self.events, 1)` (models.py:159). -/
def eventsLines : ℕ → List DMXEvent → List String
  | _, [] => []
  | i, e :: rest => eventLines i e ++ eventsLines (i + 1) rest

/-- The `TimeLine_{i+3}` label lines (models.py:145). -/
def timelineLabels (k : ℕ) : List String :=
  (List.range k).map fun i =>
    "TimeLine_" ++ (⟨natToChars (i + 3)⟩ : String)
      ++ " = L I G H T   S C E N E   T I M E L I N E   #   "
      ++ (⟨natToChars (i + 1)⟩ : String)

/-- Embeds `DMXTimeline.to_tml_format` (models.py:128), as the list of lines
that `"\n".join` receives. -/
def DMXTimeline.to_tml_format (tl : DMXTimeline) : List String :=
  ["[Params]",
   "Version = " ++ tl.version,
   "CommentTimeLine = 0",
   "LightTimeLines = " ++ (⟨natToChars tl.light_timelines⟩ : String),
   "MediaTimeLines = " ++ (⟨natToChars tl.media_timelines⟩ : String),
   "ShowWaveForm = " ++ (if tl.show_waveform then "1" else "0"),
   "MaxTime = " ++ tl.max_time,
   "Zoom = 0",
   "TimeLine_1 = V I D E O   P I C T U R E   T I M E L I N E",
   "TimeLine_2 = A U D I O   T I M E L I N E"]
  ++ timelineLabels tl.light_timelines
  ++ (if strTruthy tl.audio_file && strTruthy tl.audio_length then
        ["[Event_0]",
         "TimeLineIndex = 2",
         "StartTime = 0:00:00.0",
         "Path = " ++ tl.audio_file.getD "",
         "Length = " ++ tl.audio_length.getD ""]
      else [])
  ++ eventsLines 1 tl.events

/-- The `[Event_i]` section-header test used to state the numbering claim. -/
def isEventHeader (s : String) : Bool := "[Event_".toList.isPrefixOf s.toList

/-! ### TimelineGenerator (timeline_generator.py) -/

/-- Embeds `AudioFeatures` (models.py:20). -/
structure AudioFeatures where
  bpm : ℚ
  key : Option String := none
  energy : ℚ
  valence : ℚ
  loudness : ℚ
  tempo_stability : ℚ

/-- Embeds `AudioAnalysis` (models.py:31). -/
structure AudioAnalysis where
  file_path : String
  duration : ℚ
  features : AudioFeatures
  beats : List ℚ
  spectral_centroids : List ℚ
  onset_times : List ℚ

/-- Embeds `GenerationConfig` (models.py:182) with its defaults. -/
structure GenerationConfig where
  min_event_duration : ℚ := 0.5
  max_event_duration : ℚ := 5.0
  energy_threshold : ℚ := 0.5
  beat_sync : Bool := true
  color_intensity_mapping : Bool := true
  fixture_groups : List (String × List String) :=
    [("ceiling", ["Bodovka"]),
     ("walls", ["Spot_st\x1bna", "LED_walls"]),
     ("bench", ["LED_lavice"]),
     ("stove", ["LED_kamna"]),
     ("moving", ["Intimidator"]),
     ("effects", ["UV"])]

/-- The state of Python's module-level `random` generator: an abstract
stream of draws in `[0,1)` and the current position.  Each call of
`random.random`, `random.choice` or `random.randint` consumes one draw
and advances the shared position — the essential property of the
unseeded global Mersenne Twister that the generators use. -/
structure PyRandom where
  stream : ℕ → ℚ
  pos : ℕ

/-- One draw (`random.random()`). -/
def PyRandom.next (r : PyRandom) : ℚ × PyRandom :=
  (r.stream r.pos, ⟨r.stream, r.pos + 1⟩)

/-- Embeds `random.choice(seq)`, modelled as drawing once and indexing. -/
def PyRandom.choiceList (l : List α) (dflt : α) (r : PyRandom) : α × PyRandom :=
  let (v, r') := r.next
  (l.getD ⌊v * l.length⌋₊ dflt, r')

/-- Embeds `random.randint(a, b)`, modelled as drawing once and scaling. -/
def PyRandom.randint (a b : ℤ) (r : PyRandom) : ℤ × PyRandom :=
  let (v, r') := r.next
  (a + ⌊v * ((b - a + 1 : ℤ) : ℚ)⌋, r')

/-- Contiguous-sublist test: does `needle` occur in `hay`? -/
def infixCheck (needle : List Char) : List Char → Bool
  | [] => needle.isEmpty
  | c :: rest => needle.isPrefixOf (c :: rest) || infixCheck needle rest

/-- Python's substring test `needle in hay`. -/
def pyInStr (needle hay : String) : Bool := infixCheck needle.data hay.data

/-- Python's `max(list)` (only called on nonempty lists). -/
def pyMax : List ℚ → ℚ
  | [] => 0
  | x :: xs => xs.foldl max x

/-- Embeds `TimelineGenerator` object state: configuration and loaded
fixtures (timeline_generator.py:22).  The constructor also builds a
`color_scenes` table that no generation code ever reads; it is omitted. -/
structure TimelineGenerator where
  config : GenerationConfig
  fixtures : List DMXFixture

/-- Embeds `self.energy_colors` (timeline_generator.py:42); the strings carry
the exact (mojibake) characters of the source. -/
def energy_colors_low : List String := ["blue", "azure", "purple"]

/-- Embeds `self.energy_colors["medium"]`. -/
def energy_colors_medium : List String := ["green", "white - studen치", "white - tepl치"]

/-- Embeds `self.energy_colors["high"]`. -/
def energy_colors_high : List String := ["red", "orange", "yellow"]

/-- Embeds `TimelineGenerator._get_energy_at_time` (timeline_generator.py:321). -/
def get_energy_at_time (analysis : AudioAnalysis) (time : ℚ) : ℚ :=
  if analysis.spectral_centroids.isEmpty then analysis.features.energy
  else
    let duration := analysis.duration
    let num_centroids : ℤ := analysis.spectral_centroids.length
    let index : ℤ := pyTrunc ((time / duration) * (num_centroids : ℚ))
    let index := max 0 (min index (num_centroids - 1))
    let centroid := analysis.spectral_centroids.getD index.toNat 0
    let max_centroid := pyMax analysis.spectral_centroids
    if max_centroid > 0 then min 1 (centroid / max_centroid) else 0.5

/-- Embeds `TimelineGenerator._select_color_by_energy` (timeline_generator.py:348):
one `random.choice` from the tier's color list. -/
def select_color_by_energy (energy : ℚ) (r : PyRandom) : String × PyRandom :=
  if energy > 0.7 then PyRandom.choiceList energy_colors_high "" r
  else if energy > 0.4 then PyRandom.choiceList energy_colors_medium "" r
  else PyRandom.choiceList energy_colors_low "" r

/-- Loop body of `_generate_beat_events` (timeline_generator.py:168):
every 4th beat draws a color, then (when fixture lists are nonempty —
Python's `and` short-circuits before `random.random()`) flips for a
moving-head event and a wall-spot event. -/
def beatLoop (analysis : AudioAnalysis) (moving_fixtures wall_spots : List DMXFixture)
    (beat_interval strong_beat_interval : ℚ) :
    ℕ → List ℚ → PyRandom → Except String (List DMXEvent × PyRandom)
  | _, [], r => .ok ([], r)
  | i, beat_time :: rest, r =>
    if i % 4 = 0 then do
      let energy_level := get_energy_at_time analysis beat_time
      let (color, r1) := select_color_by_energy energy_level r
      let (evs1, r2) ←
        if moving_fixtures.isEmpty then pure (([] : List DMXEvent), r1)
        else
          let (v, ra) := r1.next
          if v < 0.6 then do
            let (_fixture, rb) := PyRandom.choiceList moving_fixtures
              ⟨0, "", 1, "", "", 4⟩ ra
            let e ← mkDMXEvent
              { timeline_index := 3
                start_time := format_time beat_time
                path := "Moving_heads/MH_oven_" ++ color ++ ".scex"
                length := some (format_duration (strong_beat_interval * 0.8))
                speed := 100
                speed_type := .percentage }
            pure ([e], rb)
          else pure ([], ra)
      let (evs2, r3) ←
        if wall_spots.isEmpty then pure (([] : List DMXEvent), r2)
        else
          let (v, ra) := r2.next
          if v < 0.4 then do
            let (spot, rb) := PyRandom.choiceList wall_spots ⟨0, "", 1, "", "", 4⟩ ra
            let spot_num := if pyInStr "#" spot.name
              then (pySplit '#' spot.name).getLastD "" else "1"
            let e ← mkDMXEvent
              { timeline_index := 4
                start_time := format_time beat_time
                path := "SPOTS_walls/SPOTS_single/SPOT_" ++ spot_num ++ "/SPOT_" ++ spot_num ++ "_" ++ color ++ ".scex"
                length := some (format_duration (beat_interval * 0.5))
                speed := 100
                speed_type := .percentage
                fade_in := some 1
                fade_out := some 1 }
            pure ([e], rb)
          else pure ([], ra)
      let (evsRest, r4) ← beatLoop analysis moving_fixtures wall_spots
        beat_interval strong_beat_interval (i + 1) rest r3
      pure (evs1 ++ evs2 ++ evsRest, r4)
    else
      beatLoop analysis moving_fixtures wall_spots beat_interval strong_beat_interval
        (i + 1) rest r

/-- Embeds `TimelineGenerator._generate_beat_events` (timeline_generator.py:149). -/
def _generate_beat_events (tg : TimelineGenerator) (analysis : AudioAnalysis)
    (r : PyRandom) : Except String (List DMXEvent × PyRandom) :=
  let moving_fixtures := tg.fixtures.filter fun f => pyInStr "Intimidator" f.model
  let wall_spots := tg.fixtures.filter fun f => pyInStr "Spot_" f.name
  let beat_interval := 60 / analysis.features.bpm
  let strong_beat_interval := beat_interval * 4
  beatLoop analysis moving_fixtures wall_spots beat_interval strong_beat_interval
    0 analysis.beats r

/-- Loop body of `_generate_energy_events` (timeline_generator.py:227):
`prev` is the previous element of the filtered high-energy list
(`high_energy_times[i-1]`), used for the minimum-spacing skip. -/
def energyLoop (tg : TimelineGenerator) (analysis : AudioAnalysis) :
    Option ℚ → List ℚ → PyRandom → Except String (List DMXEvent × PyRandom)
  | _, [], r => .ok ([], r)
  | prev, energy_time :: rest, r =>
    if (match prev with
        | some p => decide (energy_time - p < tg.config.min_event_duration)
        | none => false) then
      energyLoop tg analysis (some energy_time) rest r
    else
      let energy_level := get_energy_at_time analysis energy_time
      if energy_level > 0.7 then do
        let (color, r1) := select_color_by_energy energy_level r
        let e ← mkDMXEvent
          { timeline_index := 5
            start_time := format_time energy_time
            path := "LED_Walls/Walls_all/Walls_" ++ color ++ ".scex"
            length := some (format_duration tg.config.max_event_duration)
            speed := 100
            speed_type := .percentage
            fade_in := some 200
            fade_out := some 300 }
        let (evsRest, r2) ← energyLoop tg analysis (some energy_time) rest r1
        pure (e :: evsRest, r2)
      else if energy_level > 0.5 then do
        let (color, r1) := select_color_by_energy energy_level r
        let (wall_num, r2) := PyRandom.randint 1 11 r1
        let wn : String := ⟨intToChars wall_num⟩
        let e ← mkDMXEvent
          { timeline_index := 6
            start_time := format_time energy_time
            path := "LED_Walls/Walls_single/Walls_" ++ wn ++ "/Walls_" ++ wn ++ "_" ++ color ++ ".scex"
            length := some (format_duration (tg.config.min_event_duration * 2))
            speed := 100
            speed_type := .percentage }
        let (evsRest, r3) ← energyLoop tg analysis (some energy_time) rest r2
        pure (e :: evsRest, r3)
      else
        energyLoop tg analysis (some energy_time) rest r

/-- Embeds `TimelineGenerator._generate_energy_events` (timeline_generator.py:206). -/
def _generate_energy_events (tg : TimelineGenerator) (analysis : AudioAnalysis)
    (r : PyRandom) : Except String (List DMXEvent × PyRandom) :=
  let high_energy_times := analysis.onset_times.filter fun t =>
    get_energy_at_time analysis t > tg.config.energy_threshold
  energyLoop tg analysis none high_energy_times r

/-- Embeds `TimelineGenerator._generate_ambient_events` (timeline_generator.py:272):
no randomness. -/
def _generate_ambient_events (analysis : AudioAnalysis) :
    Except String (List DMXEvent) := do
  let base_color := if analysis.features.valence < 0.5 then "blue" else "yellow"
  let ambient_start : ℚ := 10.0
  let ambient_duration := analysis.duration - ambient_start - 10.0
  let evs1 ←
    if ambient_duration > 0 then do
      let e ← mkDMXEvent
        { timeline_index := 7
          start_time := format_time ambient_start
          path := "Bodovky/Bodovky_all/Bodovka_" ++ base_color ++ ".scex"
          length := some (format_duration ambient_duration)
          speed := 50
          speed_type := .percentage
          fade_in := some 2000
          fade_out := some 2000 }
      pure [e]
    else pure []
  let evs2 ←
    if analysis.features.valence > 0.6 then do
      let stove_color := if analysis.features.energy > 0.5 then "orange" else "red"
      let e ← mkDMXEvent
        { timeline_index := 8
          start_time := format_time 5.0
          path := "LED_Oven/Oven_" ++ stove_color ++ ".scex"
          length := some (format_duration (analysis.duration - 10.0))
          speed := 30
          speed_type := .percentage
          fade_in := some 3000
          fade_out := some 3000 }
      pure [e]
    else pure []
  pure (evs1 ++ evs2)

/-- Embeds `TimelineGenerator._generate_events` (timeline_generator.py:123):
beat events, energy events, ambient events, then a stable sort by parsed
start time (Python's `list.sort` is stable; `List.mergeSort` is stable). -/
def _generate_events (tg : TimelineGenerator) (analysis : AudioAnalysis)
    (r : PyRandom) : Except String (List DMXEvent × PyRandom) := do
  let (beatEvents, r1) ←
    if tg.config.beat_sync && !analysis.beats.isEmpty then
      _generate_beat_events tg analysis r
    else pure ([], r)
  let (energyEvents, r2) ← _generate_energy_events tg analysis r1
  let ambientEvents ← _generate_ambient_events analysis
  let events := beatEvents ++ energyEvents ++ ambientEvents
  pure (events.mergeSort (fun a b =>
    decide ((time_to_seconds a.start_time).getD 0 ≤ (time_to_seconds b.start_time).getD 0)),
    r2)

/-! ### Claim C2: determinism of event generation -/

/-- A demonstration RNG stream. -/
def demoStream : ℕ → ℚ := fun n => if n = 0 then 0 else 1 / 2

/-- A small analysis record: no beats, one onset at `t = 0` whose energy
estimate is 1. -/
def demoAnalysis : AudioAnalysis :=
  { file_path := "song.mp3"
    duration := 30
    features := { bpm := 120, energy := 0.9, valence := 0.3, loudness := -5,
                  tempo_stability := 1 }
    beats := []
    spectral_centroids := [1]
    onset_times := [0] }

/-- A generator with the default configuration and no fixtures loaded. -/
def demoGenerator : TimelineGenerator := { config := {}, fixtures := [] }

/-! ### SpectacularTimelineGenerator (spectacular_timeline_generator.py) -/

/-- One structural section of `analysis["structure"]["sections"]`
(advanced_music_analyzer.py:508). -/
structure Section where
  start_time : ℚ
  end_time : ℚ
  duration : ℚ
  type : String
  energy : ℚ
  brightness : ℚ
deriving DecidableEq, Repr, Inhabited

/-- Dictionary lookup, `d[k]` being `none` on `KeyError`. -/
def dictGet (d : List (String × α)) (k : String) : Option α :=
  (d.find? fun p => p.1 == k).map Prod.snd

/-- Embeds `self.emotion_colors` (spectacular_timeline_generator.py:35). -/
def emotion_colors : List (String × List String) :=
  [("energetic_happy", ["red", "orange", "yellow"]),
   ("peaceful_happy", ["yellow", "white - teplá", "green"]),
   ("aggressive_sad", ["red", "purple", "blue"]),
   ("melancholic", ["blue", "azure", "white - studená"])]

/-- Embeds `SpectacularTimelineGenerator._select_emotion_color`
(spectacular_timeline_generator.py:505): first color of the emotion's
list, or the default when the emotion is unknown.  (`colors[0]` cannot
fail: every table entry is nonempty.) -/
def _select_emotion_color (emotion : String) : String :=
  match dictGet emotion_colors emotion with
  | some colors => colors.getD 0 ""
  | none => "white - studená"

/-- The fixture-group order of `_create_intro_sequence`
(spectacular_timeline_generator.py:415). -/
def intro_fixtures : List String := ["Bodovky", "SPOTS_walls", "LED_walls", "LED_Oven"]

/-- Embeds `np.linspace(0, d, n)` evaluated at index `i`. -/
def linspace (d : ℚ) (n : ℕ) (i : ℕ) : ℚ :=
  if n ≤ 1 then 0 else d * (i : ℚ) / ((n - 1 : ℕ) : ℚ)

/-- Loop of `_create_intro_sequence` (spectacular_timeline_generator.py:417):
one staggered activation per fixture group (`delay = duration/len * i`,
color cycling through the emotion's list). -/
def introLoop (start_time duration : ℚ) (colors : List String) (total : ℕ) :
    ℕ → List String → Except String (List DMXEvent)
  | _, [] => .ok []
  | i, fixture_group :: rest => do
    let delay := (duration / (total : ℚ)) * (i : ℚ)
    let event_start := start_time + delay
    let color := colors.getD (i % colors.length) ""
    let e ← mkDMXEvent
      { timeline_index := 3 + (i : ℤ)
        start_time := format_time event_start
        path := fixture_group ++ "/" ++ fixture_group ++ "_all/" ++ fixture_group
          ++ "_" ++ color ++ ".scex"
        length := some (format_duration (duration - delay))
        speed := 30
        speed_type := .percentage
        fade_in := some 2000
        fade_out := some 1000 }
    let more ← introLoop start_time duration colors total (i + 1) rest
    pure (e :: more)

/-- Embeds `SpectacularTimelineGenerator._create_intro_sequence`
(spectacular_timeline_generator.py:407).  `self.emotion_colors[emotion]`
raises `KeyError` for an unknown emotion. -/
def _create_intro_sequence (start_time duration : ℚ) (emotion : String) :
    Except String (List DMXEvent) :=
  match dictGet emotion_colors emotion with
  | none => .error ("KeyError: emotion_colors")
  | some colors => introLoop start_time duration colors intro_fixtures.length 0 intro_fixtures

/-- Embeds `SpectacularTimelineGenerator._create_chorus_explosion`
(spectacular_timeline_generator.py:438): moving heads, flashing-snake
walls, and UV, all at once. -/
def _create_chorus_explosion (start_time duration : ℚ) (_energy : ℚ) (emotion : String) :
    Except String (List DMXEvent) :=
  match dictGet emotion_colors emotion with
  | none => .error ("KeyError: emotion_colors")
  | some colors =>
    match colors with
    | [] => .error ("IndexError: colors")
    | main_color :: _ => do
      let e1 ← mkDMXEvent
        { timeline_index := 3
          start_time := format_time start_time
          path := "Moving_heads/MH_oven_" ++ main_color ++ ".scex"
          length := some (format_duration duration)
          speed := 100
          speed_type := .percentage
          fade_in := some 100
          fade_out := some 300 }
      let e2 ← mkDMXEvent
        { timeline_index := 4
          start_time := format_time (start_time + 0.2)
          path := "Special_efects/Walls_flashing_snake/Walls_flashing_snake_red.scex"
          length := some (format_duration (duration - 0.2))
          speed := 2
          speed_type := .bpm_based }
      let e3 ← mkDMXEvent
        { timeline_index := 12
          start_time := format_time (start_time + 0.5)
          path := "UV/UV.scex"
          length := some (format_duration (duration - 0.5))
          speed := 100
          speed_type := .percentage }
      pure [e1, e2, e3]

/-- Embeds `SpectacularTimelineGenerator._generate_structural_effects`
(spectacular_timeline_generator.py:109): dispatch on each section's
type.  The `verse` and `outro` branches call `_create_verse_lighting`
and `_create_outro_sequence`, which are not defined anywhere in the
class (or repository): reaching them raises `AttributeError`. -/
def _generate_structural_effects (sections : List Section) (emotion : String) :
    Except String (List DMXEvent) :=
  match sections with
  | [] => .ok []
  | sec :: rest =>
    if sec.type = "intro" then do
      let evs ← _create_intro_sequence sec.start_time sec.duration emotion
      let more ← _generate_structural_effects rest emotion
      pure (evs ++ more)
    else if sec.type = "verse" then
      .error ("AttributeError: _create_verse_lighting")
    else if sec.type = "chorus" then do
      let evs ← _create_chorus_explosion sec.start_time sec.duration
        sec.energy emotion
      let more ← _generate_structural_effects rest emotion
      pure (evs ++ more)
    else if sec.type = "outro" then
      .error ("AttributeError: _create_outro_sequence")
    else
      _generate_structural_effects rest emotion

/-- The transient part of `_generate_dynamic_effects`
(spectacular_timeline_generator.py:257): a white full-rig flash plus a
UV flash 50 ms later, per transient. -/
def transientsEvents : List ℚ → Except String (List DMXEvent)
  | [] => .ok []
  | transient_time :: rest => do
    let e1 ← mkDMXEvent
      { timeline_index := 5
        start_time := format_time transient_time
        path := "LED_walls/Walls_all/Walls_white - studená.scex"
        length := some "0:00:00.1"
        speed := 100
        speed_type := .percentage
        fade_in := some 1
        fade_out := some 1 }
    let e2 ← mkDMXEvent
      { timeline_index := 12
        start_time := format_time (transient_time + 0.05)
        path := "UV/UV.scex"
        length := some "0:00:00.2"
        speed := 100
        speed_type := .percentage }
    let more ← transientsEvents rest
    pure (e1 :: e2 :: more)

/-- The sustain-region state machine of `_generate_dynamic_effects`
(spectacular_timeline_generator.py:288): entering a region records its
start, leaving it emits one slow ambient event when the measured
duration exceeds 2 s.  A region still open when the mask ends is never
closed. -/
def sustainLoop (times : ℕ → ℚ) (emotion : String) :
    ℕ → Bool → ℚ → List Bool → Except String (List DMXEvent)
  | _, _, _, [] => .ok []
  | i, in_sustain, sustain_start, is_sustain :: rest =>
    if is_sustain && !in_sustain then
      sustainLoop times emotion (i + 1) true (times i) rest
    else if !is_sustain && in_sustain then do
      let sustain_duration := times i - sustain_start
      let evs ←
        if sustain_duration > 2.0 then do
          let color := _select_emotion_color emotion
          let e ← mkDMXEvent
            { timeline_index := 6
              start_time := format_time sustain_start
              path := "Bodovky/Bodovky_all/Bodovka_" ++ color ++ ".scex"
              length := some (format_duration sustain_duration)
              speed := 30
              speed_type := .percentage
              fade_in := some 1000
              fade_out := some 1000 }
          pure [e]
        else pure ([] : List DMXEvent)
      let more ← sustainLoop times emotion (i + 1) false sustain_start rest
      pure (evs ++ more)
    else
      sustainLoop times emotion (i + 1) in_sustain sustain_start rest

/-- Embeds `SpectacularTimelineGenerator._generate_dynamic_effects`
(spectacular_timeline_generator.py:250): transient flashes followed by
sustain-region ambients. -/
def _generate_dynamic_effects (duration : ℚ) (transients : List ℚ)
    (sustain_regions : List Bool) (emotion : String) :
    Except String (List DMXEvent) := do
  let tevs ← transientsEvents transients
  let times := fun i => linspace duration sustain_regions.length i
  let sevs ← sustainLoop times emotion 0 false 0 sustain_regions
  pure (tevs ++ sevs)

/-- All maximal runs of `true` in a mask, as `[start, stop)` index
pairs; a trailing run is reported with `stop` equal to the mask length. -/
def trueRunsAux : ℕ → Option ℕ → List Bool → List (ℕ × ℕ)
  | i, cur, [] =>
    (match cur with
     | some s => [(s, i)]
     | none => [])
  | i, cur, b :: rest =>
    match cur, b with
    | none, true => trueRunsAux (i + 1) (some i) rest
    | none, false => trueRunsAux (i + 1) none rest
    | some s, true => trueRunsAux (i + 1) (some s) rest
    | some s, false => (s, i) :: trueRunsAux (i + 1) none rest

/-- All maximal `true` runs of a mask. -/
def trueRuns (mask : List Bool) : List (ℕ × ℕ) := trueRunsAux 0 none mask

/-- The ambient event the sustain loop emits for a run starting at
`times s` with measured duration `d`. -/
def sustainEvent (emotion : String) (start d : ℚ) : DMXEvent :=
  { timeline_index := 6
    start_time := format_time start
    path := "Bodovky/Bodovky_all/Bodovka_" ++ _select_emotion_color emotion ++ ".scex"
    length := some (format_duration d)
    speed := 30
    speed_type := .percentage
    fade_in := some 1000
    fade_out := some 1000 }

/-- From the amended claim: one ambient event per maximal `true` run
that is closed by a `false` sample (`stop < mask.length`) and measures
longer than 2 s; trailing runs produce nothing. -/
def sustainRunEvents (duration : ℚ) (mask : List Bool) (emotion : String) :
    List DMXEvent :=
  let times := fun i => linspace duration mask.length i
  ((trueRuns mask).filter fun r =>
      decide (r.2 < mask.length) && decide ((2.0 : ℚ) < times r.2 - times r.1)).map
    fun r => sustainEvent emotion (times r.1) (times r.2 - times r.1)

/-- Embeds `np.percentile(xs, q)` with the default linear interpolation:
sort ascending, `h = (n-1)·q/100`, interpolate between ranks `⌊h⌋` and
`⌈h⌉`.  (numpy raises on an empty array; the `n = 0` guard value is
never used by this codebase.) -/
def npPercentile (q : ℚ) (xs : List ℚ) : ℚ :=
  let s := xs.insertionSort (· ≤ ·)
  let n := s.length
  if n = 0 then 0
  else
    let h : ℚ := ((n - 1 : ℕ) : ℚ) * q / 100
    let lo := (⌊h⌋).toNat
    let hi := (⌈h⌉).toNat
    let a := s.getD lo 0
    let b := s.getD hi 0
    a + (h - ((lo : ℕ) : ℚ)) * (b - a)

/-- Embeds `np.sum(np.abs(np.diff(chroma, axis=1)), axis=0)` for one pair of
adjacent chroma frames: the L1 distance. -/
def l1ChromaDiff (f1 f2 : List ℚ) : ℚ := ((f1.zip f2).map fun p => |p.2 - p.1|).sum

/-- The harmonic-change signal: L1 distances of adjacent chroma frames
(the chroma matrix is embedded as its list of frame columns). -/
def harmonicChange : List (List ℚ) → List ℚ
  | f1 :: f2 :: rest => l1ChromaDiff f1 f2 :: harmonicChange (f2 :: rest)
  | _ => []

/-- Loop of `_generate_harmonic_effects`
(spectacular_timeline_generator.py:339): for each retained index, a
whole-rig color change only when the magnitude exceeds the 95th
percentile. -/
def harmonicLoop (times : ℕ → ℚ) (hc : List ℚ) (emotion : String) (tlen : ℕ) :
    List ℕ → Except String (List DMXEvent)
  | [] => .ok []
  | idx :: rest =>
    if idx ≥ tlen then harmonicLoop times hc emotion tlen rest
    else
      let change_time := times idx
      let change_magnitude := hc.getD idx 0
      if change_magnitude > npPercentile 95 hc then do
        let new_color := _select_emotion_color emotion
        let e ← mkDMXEvent
          { timeline_index := 7
            start_time := format_time change_time
            path := "LED_walls/Walls_all/Walls_" ++ new_color ++ ".scex"
            length := some "0:00:03.0"
            speed := 50
            speed_type := .percentage
            fade_in := some 500
            fade_out := some 500 }
        let more ← harmonicLoop times hc emotion tlen rest
        pure (e :: more)
      else
        harmonicLoop times hc emotion tlen rest

/-- Embeds `SpectacularTimelineGenerator._generate_harmonic_effects`
(spectacular_timeline_generator.py:320): with more than one chroma
frame, keep indices above the 85th percentile of the change signal
(`np.where`, ascending) and loop over them. -/
def _generate_harmonic_effects (duration : ℚ) (chroma : List (List ℚ))
    (emotion : String) : Except String (List DMXEvent) :=
  if chroma.length > 1 then
    let harmonic_change := harmonicChange chroma
    let change_threshold := npPercentile 85 harmonic_change
    let change_indices := (List.range harmonic_change.length).filter
      fun j => decide (harmonic_change.getD j 0 > change_threshold)
    harmonicLoop (fun i => linspace duration harmonic_change.length i)
      harmonic_change emotion harmonic_change.length change_indices
  else .ok []

/-- Embeds `np.mean` (unreachable `0` for the empty input, on which
numpy yields `nan`). -/
def npMean (xs : List ℚ) : ℚ := if xs.isEmpty then 0 else xs.sum / (xs.length : ℚ)

/-- Clamps one endpoint of a Python slice. -/
def pySliceIdx (n : ℕ) (i : ℤ) : ℕ := if i < 0 then ((n : ℤ) + i).toNat else min i.toNat n

/-- Embeds the Python slice `y[a:b]`. -/
def pySlice (y : List α) (a b : ℤ) : List α :=
  (y.take (pySliceIdx y.length b)).drop (pySliceIdx y.length a)

/-- Embeds `AdvancedMusicAnalyzer._classify_sections`
(advanced_music_analyzer.py:476).  The external librosa feature
extractors are abstracted as parameters: `rmsF` models
`librosa.feature.rms(y=·)` (a list of frame RMS values) and `centroidF`
models `librosa.feature.spectral_centroid(y=·, sr=sr)`; the spec places
feature extraction outside the core.  Note the chorus threshold the
code computes is `np.percentile([np.mean(rms(y))], 75)` — the 75th
percentile of a one-element list, which is simply the whole-track mean
RMS. -/
def _classify_sections (rmsF centroidF : List ℚ → List ℚ) (y : List ℚ) (sr : ℚ)
    (boundary_times : List ℚ) : List Section :=
  (List.range (boundary_times.length - 1)).filterMap fun i =>
    let start_time := boundary_times.getD i 0
    let end_time := boundary_times.getD (i + 1) 0
    let start_sample := pyTrunc (start_time * sr)
    let end_sample := pyTrunc (end_time * sr)
    let segment := pySlice y start_sample end_sample
    if segment.isEmpty then none
    else
      let rms_energy := npMean (rmsF segment)
      let spectral_centroid := npMean (centroidF segment)
      let section_type :=
        if i = 0 then "intro"
        else if i = boundary_times.length - 2 then "outro"
        else if rms_energy > npPercentile 75 [npMean (rmsF y)] then "chorus"
        else "verse"
      some { start_time := start_time, end_time := end_time,
             duration := end_time - start_time, type := section_type,
             energy := rms_energy, brightness := spectral_centroid }

/-- The audio slice examined for section `i`. -/
def sectionSegment (y : List ℚ) (sr : ℚ) (boundary_times : List ℚ) (i : ℕ) : List ℚ :=
  pySlice y (pyTrunc (boundary_times.getD i 0 * sr))
    (pyTrunc (boundary_times.getD (i + 1) 0 * sr))

/-- The section record built for a nonempty segment `i`. -/
def classifySection (rmsF centroidF : List ℚ → List ℚ) (y : List ℚ) (sr : ℚ)
    (boundary_times : List ℚ) (i : ℕ) : Section :=
  { start_time := boundary_times.getD i 0
    end_time := boundary_times.getD (i + 1) 0
    duration := boundary_times.getD (i + 1) 0 - boundary_times.getD i 0
    type :=
      if i = 0 then "intro"
      else if i = boundary_times.length - 2 then "outro"
      else if npMean (rmsF (sectionSegment y sr boundary_times i))
          > npPercentile 75 [npMean (rmsF y)] then "chorus"
      else "verse"
    energy := npMean (rmsF (sectionSegment y sr boundary_times i))
    brightness := npMean (centroidF (sectionSegment y sr boundary_times i)) }

/-- C7 demonstration feature extractor exhibiting the counterexample:
the whole-track RMS distribution is `[0, 1, 1, 1]` (mean 3/4, true 75th
percentile 1) and the middle segment's RMS is 4/5. -/
def demoRmsF : List ℚ → List ℚ := fun s =>
  if s = [2] then [4 / 5] else if s = [1, 2, 3] then [0, 1, 1, 1] else [1 / 10]

/-- C7 demonstration centroid extractor. -/
def demoCentroidF : List ℚ → List ℚ := fun _ => [0]

/-- C7 demonstration extractor for the spec's `[0.1, 0.9, 0.2, 0.1]`
example, with whole-track mean RMS 0.3. -/
def demoRmsF2 : List ℚ → List ℚ := fun s =>
  if s = [1] then [1 / 10] else if s = [2] then [9 / 10]
  else if s = [3] then [2 / 10] else if s = [4] then [1 / 10]
  else if s = [1, 2, 3, 4] then [3 / 10] else []

/-! ### Lemmas about digit rendering and parsing -/

theorem natToChars_ne_nil (n : ℕ) : natToChars n ≠ [] := by
  rw [natToChars]
  split <;> simp

theorem digitChar_isDigit {n : ℕ} (h : n < 10) : (digitChar n).isDigit = true := by
  interval_cases n <;> decide

theorem natToChars_all_digit (n : ℕ) : ∀ c ∈ natToChars n, c.isDigit = true := by
  induction n using natToChars.induct with
  | case1 n h =>
    rw [natToChars, dif_pos h]
    intro c hc
    simp only [List.mem_singleton] at hc
    exact hc ▸ digitChar_isDigit h
  | case2 n h ih =>
    rw [natToChars, dif_neg h]
    intro c hc
    rcases List.mem_append.1 hc with h1 | h1
    · exact ih c h1
    · simp only [List.mem_singleton] at h1
      exact h1 ▸ digitChar_isDigit (Nat.mod_lt _ (by omega))

theorem digitVal_digitChar {n : ℕ} (h : n < 10) : digitVal (digitChar n) = n := by
  interval_cases n <;> decide

theorem digitsVal_append_singleton (l : List Char) (c : Char) :
    digitsVal (l ++ [c]) = 10 * digitsVal l + digitVal c := by
  simp [digitsVal, List.foldl_append]

theorem digitsVal_natToChars (n : ℕ) : digitsVal (natToChars n) = n := by
  induction n using natToChars.induct with
  | case1 n h =>
    rw [natToChars, dif_pos h]
    simp [digitsVal, digitVal_digitChar h]
  | case2 n h ih =>
    rw [natToChars, dif_neg h, digitsVal_append_singleton, ih,
      digitVal_digitChar (Nat.mod_lt _ (by omega))]
    omega

theorem isDigit_ne_signs {c : Char} (h : c.isDigit = true) : c ≠ '-' ∧ c ≠ '+' := by
  constructor <;> rintro rfl <;> simp [Char.isDigit] at h

theorem pyIntChars_of_digits {l : List Char} (hne : l ≠ [])
    (hd : ∀ c ∈ l, c.isDigit = true) : pyIntChars l = some (digitsVal l : ℤ) := by
  cases l with
  | nil => exact absurd rfl hne
  | cons c rest =>
    have hc := hd c (List.mem_cons_self _ _)
    obtain ⟨h1, h2⟩ := isDigit_ne_signs hc
    rw [pyIntChars, if_neg h1, if_neg h2, if_pos]
    rw [List.all_eq_true]
    exact hd

theorem pyIntChars_natToChars (n : ℕ) : pyIntChars (natToChars n) = some (n : ℤ) := by
  rw [pyIntChars_of_digits (natToChars_ne_nil n) (natToChars_all_digit n),
    digitsVal_natToChars]

theorem digitsVal_cons_zero (l : List Char) : digitsVal ('0' :: l) = digitsVal l := by
  simp [digitsVal, digitVal]

theorem pad2_natCast (m : ℕ) :
    pad2 (m : ℤ) = if m < 10 then '0' :: natToChars m else natToChars m := by
  rw [pad2]
  split
  · rename_i h
    rw [if_pos (by exact_mod_cast h.2)]
    simp
  · rename_i h
    rw [if_neg (by intro hlt; exact h ⟨Int.natCast_nonneg m, by exact_mod_cast hlt⟩)]
    rw [intToChars, if_neg (by exact not_lt.2 (Int.natCast_nonneg m))]
    simp

theorem pad2_all_digit (m : ℕ) : ∀ c ∈ pad2 (m : ℤ), c.isDigit = true := by
  rw [pad2_natCast]
  split
  · intro c hc
    rcases List.mem_cons.1 hc with rfl | h
    · decide
    · exact natToChars_all_digit m c h
  · exact natToChars_all_digit m

theorem pad2_ne_nil (m : ℕ) : pad2 (m : ℤ) ≠ [] := by
  rw [pad2_natCast]
  split
  · simp
  · exact natToChars_ne_nil m

theorem pyIntChars_pad2 (m : ℕ) : pyIntChars (pad2 (m : ℤ)) = some (m : ℤ) := by
  rw [pyIntChars_of_digits (pad2_ne_nil m) (pad2_all_digit m)]
  rw [pad2_natCast]
  split
  · rw [digitsVal_cons_zero, digitsVal_natToChars]
  · rw [digitsVal_natToChars]

/-! ### Lemmas about `pySplitChars` -/

theorem pySplitChars_ne_nil (sep : Char) (l : List Char) : pySplitChars sep l ≠ [] := by
  cases l with
  | nil => simp [pySplitChars]
  | cons c rest =>
    rw [pySplitChars]
    split
    · simp
    · split <;> simp

theorem pySplitChars_of_not_mem {sep : Char} {l : List Char} (h : sep ∉ l) :
    pySplitChars sep l = [l] := by
  induction l with
  | nil => rfl
  | cons c rest ih =>
    rw [pySplitChars]
    have hc : ¬c = sep := fun hcs => h (hcs ▸ List.mem_cons_self c rest)
    rw [if_neg hc]
    have := ih (fun hm => h (List.mem_cons_of_mem c hm))
    simp only [this]

theorem pySplitChars_append {sep : Char} {l1 : List Char} (l2 : List Char)
    (h : sep ∉ l1) :
    pySplitChars sep (l1 ++ sep :: l2) = l1 :: pySplitChars sep l2 := by
  induction l1 with
  | nil =>
    simp only [List.nil_append]
    rw [pySplitChars, if_pos rfl]
  | cons c rest ih =>
    have hc : ¬c = sep := fun hcs => h (hcs ▸ List.mem_cons_self c rest)
    rw [List.cons_append, pySplitChars, if_neg hc,
      ih (fun hm => h (List.mem_cons_of_mem c hm))]

theorem not_colon_of_digit {c : Char} (h : c.isDigit = true) : c ≠ ':' := by
  rintro rfl
  simp [Char.isDigit] at h

theorem not_dot_of_digit {c : Char} (h : c.isDigit = true) : c ≠ '.' := by
  rintro rfl
  simp [Char.isDigit] at h

theorem colon_not_mem_natToChars (n : ℕ) : ':' ∉ natToChars n := fun h =>
  not_colon_of_digit (natToChars_all_digit n ':' h) rfl

theorem dot_not_mem_natToChars (n : ℕ) : '.' ∉ natToChars n := fun h =>
  not_dot_of_digit (natToChars_all_digit n '.' h) rfl

theorem colon_not_mem_pad2 (m : ℕ) : ':' ∉ pad2 (m : ℤ) := fun h =>
  not_colon_of_digit (pad2_all_digit m ':' h) rfl

theorem dot_not_mem_pad2 (m : ℕ) : '.' ∉ pad2 (m : ℤ) := fun h =>
  not_dot_of_digit (pad2_all_digit m '.' h) rfl

theorem intToChars_natCast (n : ℕ) : intToChars (n : ℤ) = natToChars n := by
  rw [intToChars, if_neg (by exact not_lt.2 (Int.natCast_nonneg n))]
  simp

theorem pyTrunc_of_nonneg {q : ℚ} (h : 0 ≤ q) : pyTrunc q = ⌊q⌋ := if_pos h

theorem floor_natCast_add_fract_eq {A : ℕ} {f : ℚ} (hf0 : 0 ≤ f) (hf1 : f < 1) :
    ⌊((A : ℚ) + f)⌋₊ = A := by
  rw [Nat.floor_eq_iff (by positivity)]
  constructor
  · linarith
  · linarith

theorem floor_add_fract_div (A k : ℕ) (f : ℚ) (hf0 : 0 ≤ f) (hf1 : f < 1) :
    ((⌊((A : ℚ) + f) / ((k : ℕ) : ℚ)⌋ : ℤ) : ℚ) = ((A / k : ℕ) : ℚ) := by
  have hx : (0 : ℚ) ≤ ((A : ℚ) + f) / ((k : ℕ) : ℚ) := by positivity
  have h1 : ⌊((A : ℚ) + f) / ((k : ℕ) : ℚ)⌋ = ((⌊((A : ℚ) + f) / ((k : ℕ) : ℚ)⌋₊ : ℕ) : ℤ) := by
    rw [← Int.floor_toNat, Int.toNat_of_nonneg (Int.floor_nonneg.2 hx)]
  rw [h1, Nat.floor_div_nat, floor_natCast_add_fract_eq hf0 hf1]
  exact_mod_cast rfl

/-- For nonnegative `t`, `_format_time` renders the components
`⌊t⌋ div 3600 : ⌊t⌋ mod 3600 div 60 : ⌊t⌋ mod 60 . ⌊fract t * 10⌋`. -/
theorem format_time_eq (t : ℚ) (ht : 0 ≤ t) :
    format_time t =
      renderTime (⌊t⌋₊ / 3600) (⌊t⌋₊ % 3600 / 60) (⌊t⌋₊ % 60) (⌊Int.fract t * 10⌋₊) := by
  set n := ⌊t⌋₊ with hn
  set f := Int.fract t with hfdef
  have hf0 : 0 ≤ f := Int.fract_nonneg t
  have hf1 : f < 1 := Int.fract_lt_one t
  have hfl : (⌊t⌋ : ℤ) = (n : ℤ) := by
    rw [hn, ← Int.floor_toNat, Int.toNat_of_nonneg (Int.floor_nonneg.2 ht)]
  have ht_eq : t = (n : ℚ) + f := by
    have h0 := Int.floor_add_fract t
    rw [hfl] at h0
    push_cast at h0
    linarith
  have cast3600 : ((3600 : ℚ)) = (((3600 : ℕ) : ℕ) : ℚ) := by norm_num
  have cast60 : ((60 : ℚ)) = (((60 : ℕ) : ℕ) : ℚ) := by norm_num
  have hfd3600 : ((⌊t / (3600 : ℚ)⌋ : ℤ) : ℚ) = ((n / 3600 : ℕ) : ℚ) := by
    rw [ht_eq, cast3600]
    exact floor_add_fract_div n 3600 f hf0 hf1
  have hmod3600 : pyMod t 3600 = ((n % 3600 : ℕ) : ℚ) + f := by
    rw [pyMod, hfd3600, ht_eq]
    have hc : 3600 * ((n / 3600 : ℕ) : ℚ) + ((n % 3600 : ℕ) : ℚ) = (n : ℚ) := by
      exact_mod_cast Nat.div_add_mod n 3600
    linarith
  have hours_eq : pyTrunc (pyFloorDiv t 3600) = ((n / 3600 : ℕ) : ℤ) := by
    rw [pyFloorDiv, hfd3600, pyTrunc_of_nonneg (by positivity), Int.floor_natCast]
  have minutes_eq : pyTrunc (pyFloorDiv (pyMod t 3600) 60) = ((n % 3600 / 60 : ℕ) : ℤ) := by
    rw [pyFloorDiv, hmod3600, cast60, floor_add_fract_div (n % 3600) 60 f hf0 hf1,
      pyTrunc_of_nonneg (by positivity), Int.floor_natCast]
  have hfd60 : ((⌊t / (60 : ℚ)⌋ : ℤ) : ℚ) = ((n / 60 : ℕ) : ℚ) := by
    rw [ht_eq, cast60]
    exact floor_add_fract_div n 60 f hf0 hf1
  have hmod60 : pyMod t 60 = ((n % 60 : ℕ) : ℚ) + f := by
    rw [pyMod, hfd60, ht_eq]
    have hc : 60 * ((n / 60 : ℕ) : ℚ) + ((n % 60 : ℕ) : ℚ) = (n : ℚ) := by
      exact_mod_cast Nat.div_add_mod n 60
    linarith
  have whole_eq : pyTrunc (pyMod t 60) = ((n % 60 : ℕ) : ℤ) := by
    rw [hmod60, pyTrunc_of_nonneg (by positivity)]
    have : ((n % 60 : ℕ) : ℚ) = (((n % 60 : ℕ) : ℤ) : ℚ) := by exact_mod_cast rfl
    rw [this, Int.floor_int_add, Int.floor_eq_zero_iff.2 ⟨hf0, hf1⟩, add_zero]
  have millis_eq : pyTrunc ((pyMod t 60 - ((pyTrunc (pyMod t 60) : ℤ) : ℚ)) * 10)
      = ((⌊f * 10⌋₊ : ℕ) : ℤ) := by
    have frac_eq : pyMod t 60 - ((pyTrunc (pyMod t 60) : ℤ) : ℚ) = f := by
      rw [whole_eq, hmod60]
      have : ((((n % 60 : ℕ) : ℤ)) : ℚ) = ((n % 60 : ℕ) : ℚ) := by exact_mod_cast rfl
      rw [this]
      ring
    rw [frac_eq, pyTrunc_of_nonneg (by positivity), ← Int.floor_toNat,
      Int.toNat_of_nonneg (Int.floor_nonneg.2 (by positivity))]
  simp only [format_time, renderTime]
  rw [millis_eq, hours_eq, minutes_eq, whole_eq, intToChars_natCast, intToChars_natCast]

theorem pySplit_renderTime (h m s d : ℕ) :
    pySplit ':' (renderTime h m s d)
      = [⟨natToChars h⟩, ⟨pad2 (m : ℤ)⟩, ⟨pad2 (s : ℤ) ++ '.' :: natToChars d⟩] := by
  have hsplit : pySplitChars ':'
      (natToChars h ++ ':' :: (pad2 (m : ℤ) ++ ':' :: (pad2 (s : ℤ) ++ '.' :: natToChars d)))
      = [natToChars h, pad2 (m : ℤ), pad2 (s : ℤ) ++ '.' :: natToChars d] := by
    rw [pySplitChars_append _ (colon_not_mem_natToChars h),
      pySplitChars_append _ (colon_not_mem_pad2 m),
      pySplitChars_of_not_mem (by
        intro hmem
        rcases List.mem_append.1 hmem with h1 | h1
        · exact colon_not_mem_pad2 s h1
        · rcases List.mem_cons.1 h1 with h2 | h2
          · exact absurd h2 (by decide)
          · exact colon_not_mem_natToChars d h2)]
  show (pySplitChars ':' (renderTime h m s d).data).map _ = _
  rw [show (renderTime h m s d).data
      = natToChars h ++ ':' :: (pad2 (m : ℤ) ++ ':' :: (pad2 (s : ℤ) ++ '.' :: natToChars d)) by
    simp [renderTime]]
  rw [hsplit]
  rfl

theorem pySplit_dot_seconds (s d : ℕ) :
    pySplit '.' (⟨pad2 (s : ℤ) ++ '.' :: natToChars d⟩ : String)
      = [⟨pad2 (s : ℤ)⟩, ⟨natToChars d⟩] := by
  show (pySplitChars '.' (pad2 (s : ℤ) ++ '.' :: natToChars d)).map _ = _
  rw [pySplitChars_append _ (dot_not_mem_pad2 s),
    pySplitChars_of_not_mem (dot_not_mem_natToChars d)]
  rfl

theorem pyInt_natToChars (n : ℕ) : pyInt (⟨natToChars n⟩ : String) = some (n : ℤ) :=
  pyIntChars_natToChars n

theorem pyInt_pad2 (m : ℕ) : pyInt (⟨pad2 (m : ℤ)⟩ : String) = some (m : ℤ) :=
  pyIntChars_pad2 m

theorem time_to_seconds_render (h m s d : ℕ) :
    time_to_seconds (renderTime h m s d) =
      some ((h : ℚ) * 3600 + (m : ℚ) * 60 + (s : ℚ) + (d : ℚ) / 10) := by
  rw [time_to_seconds, pySplit_renderTime]
  simp only [pyInt_natToChars, pyInt_pad2, pySplit_dot_seconds, Option.bind_eq_bind,
    Option.pure_def, Option.some_bind]
  push_cast
  ring_nf

theorem validate_render (h m s d : ℕ) :
    validate_start_time (renderTime h m s d)
      = (decide (h ≤ 23) && decide (m ≤ 59) && decide (s ≤ 59) && decide (d ≤ 999)) := by
  rw [validate_start_time, pySplit_renderTime]
  simp only [pySplit_dot_seconds, List.head?, Option.some_bind, Option.bind_eq_bind,
    pyInt_natToChars, pyInt_pad2, List.length_cons, List.length_nil, List.getD,
    List.getElem?_cons_succ, List.getElem?_cons_zero, Option.getD_some, if_pos rfl,
    if_true, List.get?_cons_succ, List.get?_cons_zero]
  rw [show decide (0 ≤ (h : ℤ) ∧ (h : ℤ) ≤ 23) = decide (h ≤ 23) from
      decide_eq_decide.2 (by omega),
    show decide (0 ≤ (m : ℤ) ∧ (m : ℤ) ≤ 59) = decide (m ≤ 59) from
      decide_eq_decide.2 (by omega),
    show decide (0 ≤ (s : ℤ) ∧ (s : ℤ) ≤ 59) = decide (s ≤ 59) from
      decide_eq_decide.2 (by omega),
    show decide (0 ≤ (d : ℤ) ∧ (d : ℤ) ≤ 999) = decide (d ≤ 999) from
      decide_eq_decide.2 (by omega)]

theorem floor_eq_natFloor_cast {x : ℚ} (hx : 0 ≤ x) : (⌊x⌋ : ℤ) = ((⌊x⌋₊ : ℕ) : ℤ) := by
  rw [← Int.floor_toNat, Int.toNat_of_nonneg (Int.floor_nonneg.2 hx)]

theorem nonneg_floor_decomp (t : ℚ) (ht : 0 ≤ t) :
    t = ((⌊t⌋₊ : ℕ) : ℚ) + Int.fract t := by
  have h0 := Int.floor_add_fract t
  rw [floor_eq_natFloor_cast ht] at h0
  push_cast at h0
  linarith

/-! ### Claim C5: time-codec round trip -/

/-- C5: for every seconds value `t` in `[0, 86399.9]`, parsing the
formatted string recovers `t` to within one decisecond — exactly,
`_time_to_seconds (_format_time t) = ⌊10·t⌋/10` (the formatter truncates
the fractional digit, it does not round), which differs from `t` by at
most `0.1`. -/
theorem C5_time_codec_roundtrip (t : ℚ) (h0 : 0 ≤ t) (_h1 : t ≤ 863999 / 10) :
    time_to_seconds (format_time t) = some (((⌊10 * t⌋ : ℤ) : ℚ) / 10)
    ∧ |t - ((⌊10 * t⌋ : ℤ) : ℚ) / 10| ≤ 1 / 10 := by
  have hf0 : 0 ≤ Int.fract t := Int.fract_nonneg t
  have hf1 : Int.fract t < 1 := Int.fract_lt_one t
  have ht_eq := nonneg_floor_decomp t h0
  set n := ⌊t⌋₊ with hn
  set f := Int.fract t with hfdef
  have h10 : (⌊10 * t⌋ : ℤ) = 10 * (n : ℤ) + ((⌊f * 10⌋₊ : ℕ) : ℤ) := by
    rw [show (10 : ℚ) * t = ((((10 * n : ℕ) : ℤ)) : ℚ) + f * 10 by
        rw [ht_eq]; push_cast; ring,
      Int.floor_int_add, floor_eq_natFloor_cast (by positivity)]
    push_cast
    ring
  constructor
  · rw [format_time_eq t h0, time_to_seconds_render]
    have hident : n / 3600 * 3600 + n % 3600 / 60 * 60 + n % 60 = n := by omega
    have hq : ((n / 3600 : ℕ) : ℚ) * 3600 + ((n % 3600 / 60 : ℕ) : ℚ) * 60
        + ((n % 60 : ℕ) : ℚ) = (n : ℚ) := by
      exact_mod_cast congrArg (fun k : ℕ => (k : ℚ)) hident
    rw [h10]
    congr 1
    push_cast
    push_cast at hq
    linarith
  · have hle := Int.floor_le (10 * t)
    have hlt := Int.lt_floor_add_one (10 * t)
    rw [abs_of_nonneg (by linarith)]
    linarith

/-- Witness for `C5_time_codec_roundtrip` at `t = 7322.75`
(formatted as `"2:02:02.7"`, parsed back as `7322.7`). -/
theorem C5_time_codec_roundtrip_witness :
    time_to_seconds (format_time (29291 / 4)) = some (73227 / 10)
    ∧ |(29291 / 4 : ℚ) - 73227 / 10| ≤ 1 / 10 := by
  have h := C5_time_codec_roundtrip (29291 / 4) (by norm_num) (by norm_num)
  have hfl : (⌊(10 : ℚ) * (29291 / 4)⌋ : ℤ) = 73227 := by
    rw [show (10 : ℚ) * (29291 / 4) = 73227 + 1 / 2 by norm_num]
    rw [show ((73227 : ℚ) + 1 / 2) = ((73227 : ℤ) : ℚ) + 1 / 2 by norm_num,
      Int.floor_int_add, Int.floor_eq_zero_iff.2 (by constructor <;> norm_num)]
    norm_num
  rw [hfl] at h
  push_cast at h
  exact h

/-! ### Claim C10: formatter output versus event validator -/

/-- C10: for `0 ≤ t < 86400` the string `_format_time t` passes
`DMXEvent.validate_start_time`, so every event the generators build from
an in-range timestamp is constructible; for `t ≥ 86400` the formatted
string has an hours field `≥ 24` and validation fails. -/
theorem validate_format_time_of_lt {t : ℚ} (h0 : 0 ≤ t) (hlt : t < 86400) :
    validate_start_time (format_time t) = true := by
  rw [format_time_eq t h0, validate_render]
  have hn : ⌊t⌋₊ < 86400 := (Nat.floor_lt h0).2 (by exact_mod_cast hlt)
  have hD : ⌊Int.fract t * 10⌋₊ < 10 := by
    have hf1 : Int.fract t < 1 := Int.fract_lt_one t
    have : Int.fract t * 10 < ((10 : ℕ) : ℚ) := by push_cast; linarith
    exact (Nat.floor_lt (mul_nonneg (Int.fract_nonneg t) (by norm_num))).2 this
  simp only [Bool.and_eq_true, decide_eq_true_eq]
  refine ⟨⟨⟨?_, ?_⟩, ?_⟩, ?_⟩ <;> omega

theorem validate_format_time_of_ge {t : ℚ} (h0 : 0 ≤ t) (hge : 86400 ≤ t) :
    validate_start_time (format_time t) = false := by
  rw [format_time_eq t h0, validate_render]
  have hn : 86400 ≤ ⌊t⌋₊ := Nat.le_floor (by exact_mod_cast hge)
  have h24 : ¬(⌊t⌋₊ / 3600 ≤ 23) := by omega
  simp [h24]

theorem C10_formatter_feeds_validator (t : ℚ) (h0 : 0 ≤ t) :
    (t < 86400 → validate_start_time (format_time t) = true)
    ∧ (86400 ≤ t → validate_start_time (format_time t) = false) :=
  ⟨fun hlt => validate_format_time_of_lt h0 hlt,
   fun hge => validate_format_time_of_ge h0 hge⟩

/-- Witness for `C10_formatter_feeds_validator`: `t = 7322.75` validates,
`t = 86400` does not. -/
theorem C10_formatter_feeds_validator_witness :
    validate_start_time (format_time (29291 / 4)) = true
    ∧ validate_start_time (format_time 86400) = false :=
  ⟨(C10_formatter_feeds_validator (29291 / 4) (by norm_num)).1 (by norm_num),
    (C10_formatter_feeds_validator 86400 (by norm_num)).2 (by norm_num)⟩

/-! ### Claim C4: start-time validation ranges -/

/-- C4 counterexample: the claim says construction fails whenever the
decisecond (fractional) field exceeds 9, but `"0:00:00.15"`, whose
fractional field parses to `15 > 9`, passes `validate_start_time`: the
code range-checks the fractional part as milliseconds `0..999`, not as a
single decisecond digit. -/
theorem C4_counterexample :
    validate_start_time ("0:00:00.15") = true
    ∧ pyInt ("15") = some 15 ∧ (9 : ℤ) < 15 := by
  refine ⟨?_, ?_, by norm_num⟩ <;> rfl

/-- C4 amended: `DMXEvent.validate_start_time` fails on every string
whose colon count is not exactly three, and on a rendered
`H:MM:SS.frac` string succeeds exactly when `hours ≤ 23`,
`minutes ≤ 59`, `seconds ≤ 59` and the fractional field value is at
most `999` (milliseconds), rather than at most 9 as the claim stated. -/
theorem C4_validation_ranges :
    (∀ v : String, (pySplit ':' v).length ≠ 3 → validate_start_time v = false)
    ∧ ∀ h m s d : ℕ, validate_start_time (renderTime h m s d)
        = (decide (h ≤ 23) && decide (m ≤ 59) && decide (s ≤ 59) && decide (d ≤ 999)) := by
  constructor
  · intro v hv
    rw [validate_start_time]
    cases hsp : pySplit ':' v with
    | nil => rfl
    | cons a tl =>
      cases tl with
      | nil => rfl
      | cons b tl2 =>
        cases tl2 with
        | nil => rfl
        | cons c tl3 =>
          cases tl3 with
          | nil => exact absurd (by rw [hsp]; rfl) hv
          | cons dd tl4 => rfl
  · exact validate_render

/-- Witness for `C4_validation_ranges`: the malformed string `"1:2"` is
rejected; `renderTime 0 0 0 15` (i.e. `"0:00:00.15"`) is accepted. -/
theorem C4_validation_ranges_witness :
    validate_start_time ("1:2") = false
    ∧ validate_start_time (renderTime 0 0 0 15) = true := by
  refine ⟨C4_validation_ranges.1 ("1:2") (by decide), ?_⟩
  rw [C4_validation_ranges.2 0 0 0 15]
  decide

/-! ### Claim C6: time-parser error behavior -/

/-- C6 counterexample: the claim says `_time_to_seconds` fails on every
string without exactly three colon-delimited components, but
`"1:02:03:04"` (four components) parses successfully to `3723.0`: the
code never checks the component count and ignores everything after the
third component. -/
theorem C6_counterexample :
    (pySplit ':' ("1:02:03:04")).length = 4
    ∧ time_to_seconds ("1:02:03:04") = some 3723 := by
  refine ⟨rfl, ?_⟩
  rw [time_to_seconds,
    show pySplit ':' ("1:02:03:04") = ["1", "02", "03", "04"] by decide]
  simp only [show pyInt ("1") = some 1 by decide,
    show pyInt ("02") = some 2 by decide,
    show pySplit '.' ("03") = ["03"] by decide,
    show pyInt ("03") = some 3 by decide,
    Option.bind_eq_bind, Option.pure_def, Option.some_bind]
  norm_num

/-- C6 amended: `_time_to_seconds` fails (raises) on every string with
fewer than three colon-delimited components; with three or more it
parses the first three and ignores the rest; a third component with no
decimal point is tolerated, the decisecond defaulting to 0. -/
theorem C6_parser_errors :
    (∀ v : String, (pySplit ':' v).length < 3 → time_to_seconds v = none)
    ∧ ∀ h m s : ℕ,
        time_to_seconds ⟨natToChars h ++ ':' :: pad2 (m : ℤ) ++ ':' :: pad2 (s : ℤ)⟩
          = some ((h : ℚ) * 3600 + (m : ℚ) * 60 + (s : ℚ)) := by
  constructor
  · intro v hv
    rw [time_to_seconds]
    cases hsp : pySplit ':' v with
    | nil => rfl
    | cons a tl =>
      cases tl with
      | nil => rfl
      | cons b tl2 =>
        cases tl2 with
        | nil => rfl
        | cons c tl3 =>
          exfalso
          rw [hsp] at hv
          simp only [List.length_cons] at hv
          omega
  · intro h m s
    have hsplit : pySplitChars ':'
        (natToChars h ++ ':' :: (pad2 (m : ℤ) ++ ':' :: pad2 (s : ℤ)))
        = [natToChars h, pad2 (m : ℤ), pad2 (s : ℤ)] := by
      rw [pySplitChars_append _ (colon_not_mem_natToChars h),
        pySplitChars_append _ (colon_not_mem_pad2 m),
        pySplitChars_of_not_mem (colon_not_mem_pad2 s)]
    have hsp : pySplit ':'
        (⟨natToChars h ++ ':' :: pad2 (m : ℤ) ++ ':' :: pad2 (s : ℤ)⟩ : String)
        = [⟨natToChars h⟩, ⟨pad2 (m : ℤ)⟩, ⟨pad2 (s : ℤ)⟩] := by
      show (pySplitChars ':' _).map _ = _
      rw [show (natToChars h ++ ':' :: pad2 (m : ℤ) ++ ':' :: pad2 (s : ℤ) : List Char)
          = natToChars h ++ ':' :: (pad2 (m : ℤ) ++ ':' :: pad2 (s : ℤ)) by simp]
      rw [hsplit]
      rfl
    have hdot : pySplit '.' (⟨pad2 (s : ℤ)⟩ : String) = [⟨pad2 (s : ℤ)⟩] := by
      show (pySplitChars '.' _).map _ = _
      rw [pySplitChars_of_not_mem (dot_not_mem_pad2 s)]
      rfl
    rw [time_to_seconds, hsp]
    simp only [pyInt_natToChars, pyInt_pad2, hdot, Option.bind_eq_bind,
      Option.pure_def, Option.some_bind]
    push_cast
    ring_nf

/-- Witness for `C6_parser_errors`: `"1:2"` fails; `"0:00:05"` (no
decimal part) parses to `5.0`. -/
theorem C6_parser_errors_witness :
    time_to_seconds ("1:2") = none
    ∧ time_to_seconds ⟨natToChars 0 ++ ':' :: pad2 ((0 : ℕ) : ℤ) ++ ':' :: pad2 ((5 : ℕ) : ℤ)⟩
        = some 5 := by
  refine ⟨C6_parser_errors.1 ("1:2") (by decide), ?_⟩
  have h := C6_parser_errors.2 0 0 5
  rw [h]
  norm_num

theorem string_data_append (s t : String) : (s ++ t).data = s.data ++ t.data := by
  cases s
  cases t
  rfl

theorem isEventHeader_append_false {pre : String} (post : String) (c : Char)
    (rest : List Char) (hpre : pre.data = c :: rest) (hc : c ≠ '[') :
    isEventHeader (pre ++ post) = false := by
  rw [isEventHeader]
  show (List.isPrefixOf _ (pre ++ post).data) = false
  rw [string_data_append, hpre]
  show (List.isPrefixOf ('[' :: _) (c :: _)) = false
  simp [List.isPrefixOf, Ne.symm hc]

theorem isEventHeader_header (x : String) :
    isEventHeader (("[Event_" : String) ++ x) = true := by
  rw [isEventHeader]
  show (List.isPrefixOf _ (_ ++ x).data) = true
  rw [string_data_append]
  exact List.isPrefixOf_iff_prefix.2 (List.prefix_append _ _)

theorem filter_singleton_nonheader {pre : String} (post : String) (c : Char)
    (rest : List Char) (hpre : pre.data = c :: rest) (hc : c ≠ '[') :
    List.filter isEventHeader [pre ++ post] = [] := by
  rw [List.filter_cons, isEventHeader_append_false post c rest hpre hc]
  rfl

theorem filter_ite_nil (b : Bool) (l : List String)
    (h : l.filter isEventHeader = []) :
    (if b then l else ([] : List String)).filter isEventHeader = [] := by
  split
  · exact h
  · rfl

theorem filter_eventLines (i : ℕ) (e : DMXEvent) :
    (eventLines i e).filter isEventHeader
      = [("[Event_" : String) ++ (⟨natToChars i⟩ : String) ++ ("]" : String)] := by
  have hheader : isEventHeader
      (("[Event_" : String) ++ (⟨natToChars i⟩ : String) ++ ("]" : String)) = true := by
    rw [String.append_assoc]
    exact isEventHeader_header _
  have hlen : (match e.length with
      | some l => if l.isEmpty then [] else [("Length = " : String) ++ l]
      | none => ([] : List String)).filter isEventHeader = [] := by
    rcases e.length with _ | l
    · rfl
    · show (if l.isEmpty then ([] : List String)
        else [("Length = " : String) ++ l]).filter isEventHeader = []
      split
      · rfl
      · exact filter_singleton_nonheader l 'L' _ rfl (by decide)
  have hvol : (match e.volume with
      | some v => [("Volume = " : String) ++ (⟨intToChars v⟩ : String)]
      | none => ([] : List String)).filter isEventHeader = [] := by
    rcases e.volume with _ | v
    · rfl
    · exact filter_singleton_nonheader _ 'V' _ rfl (by decide)
  rw [eventLines]
  simp only [List.filter_append, List.filter_cons, List.filter_nil, hheader,
    isEventHeader_append_false (⟨intToChars e.timeline_index⟩ : String) 'T' _ rfl (by decide),
    isEventHeader_append_false e.start_time 'S' _ rfl (by decide),
    isEventHeader_append_false e.path 'P' _ rfl (by decide),
    hlen, hvol,
    filter_ite_nil (intTruthy e.fade_in) _
      (filter_singleton_nonheader _ 'F' _ rfl (by decide)),
    filter_ite_nil (intTruthy e.fade_out) _
      (filter_singleton_nonheader _ 'F' _ rfl (by decide)),
    filter_ite_nil (intTruthy e.bpm) _
      (filter_singleton_nonheader _ 'B' _ rfl (by decide)),
    isEventHeader_append_false (⟨intToChars e.speed⟩ : String) 'S' _ rfl (by decide),
    isEventHeader_append_false (⟨intToChars e.speed_type.value⟩ : String) 'S' _ rfl (by decide)]
  simp

theorem filter_eventsLines (i : ℕ) (es : List DMXEvent) :
    (eventsLines i es).filter isEventHeader
      = (List.range es.length).map
          (fun k => ("[Event_" : String) ++ (⟨natToChars (i + k)⟩ : String) ++ ("]" : String)) := by
  induction es generalizing i with
  | nil => rfl
  | cons e rest ih =>
    rw [eventsLines, List.filter_append, filter_eventLines, ih,
      List.length_cons, List.range_succ_eq_map]
    simp only [List.map_cons, List.map_map, Function.comp, Nat.add_zero, List.singleton_append]
    refine congrArg₂ _ rfl ?_
    refine List.map_congr_left ?_
    intro k _
    simp only [Function.comp_apply]
    rw [show i + 1 + k = i + (k + 1) by omega]

theorem C3_helper_fixed (tl : DMXTimeline) :
    List.filter isEventHeader
      ["[Params]",
       "Version = " ++ tl.version,
       "CommentTimeLine = 0",
       "LightTimeLines = " ++ (⟨natToChars tl.light_timelines⟩ : String),
       "MediaTimeLines = " ++ (⟨natToChars tl.media_timelines⟩ : String),
       "ShowWaveForm = " ++ (if tl.show_waveform then "1" else "0"),
       "MaxTime = " ++ tl.max_time,
       "Zoom = 0",
       "TimeLine_1 = V I D E O   P I C T U R E   T I M E L I N E",
       "TimeLine_2 = A U D I O   T I M E L I N E"] = [] := by
  simp only [List.filter_cons, List.filter_nil,
    (show isEventHeader ("[Params]") = false by decide),
    (show isEventHeader ("CommentTimeLine = 0") = false by decide),
    (show isEventHeader ("Zoom = 0") = false by decide),
    (show isEventHeader ("TimeLine_1 = V I D E O   P I C T U R E   T I M E L I N E") = false
      by decide),
    (show isEventHeader ("TimeLine_2 = A U D I O   T I M E L I N E") = false by decide),
    isEventHeader_append_false tl.version 'V' _ rfl (by decide),
    isEventHeader_append_false (⟨natToChars tl.light_timelines⟩ : String) 'L' _ rfl (by decide),
    isEventHeader_append_false (⟨natToChars tl.media_timelines⟩ : String) 'M' _ rfl (by decide),
    isEventHeader_append_false (if tl.show_waveform then ("1" : String) else "0") 'S' _ rfl
      (by decide),
    isEventHeader_append_false tl.max_time 'M' _ rfl (by decide)]
  simp

theorem C3_helper_labels (k : ℕ) :
    (timelineLabels k).filter isEventHeader = [] := by
  rw [List.filter_eq_nil_iff]
  intro s hs
  rw [timelineLabels] at hs
  simp only [List.mem_map, List.mem_range] at hs
  obtain ⟨j, _, rfl⟩ := hs
  rw [String.append_assoc, String.append_assoc]
  simp [isEventHeader_append_false _ 'T' _ rfl (by decide)]

/-- C3: serialization emits one `[Event_i]` section header per event,
`i` running `1..k` in insertion order (whatever the events' start
times); the optional audio-reference section is `[Event_0]` and does not
shift the numbering. -/
theorem C3_event_numbering (tl : DMXTimeline) :
    (DMXTimeline.to_tml_format tl).filter isEventHeader
      = (if strTruthy tl.audio_file && strTruthy tl.audio_length
            then [("[Event_0]" : String)] else [])
        ++ (List.range tl.events.length).map
            (fun k => ("[Event_" : String) ++ (⟨natToChars (k + 1)⟩ : String)
              ++ ("]" : String)) := by
  rw [DMXTimeline.to_tml_format, List.filter_append, List.filter_append, List.filter_append,
    C3_helper_fixed, C3_helper_labels, filter_eventsLines]
  have haudio : (if strTruthy tl.audio_file && strTruthy tl.audio_length then
        ["[Event_0]",
         "TimeLineIndex = 2",
         "StartTime = 0:00:00.0",
         "Path = " ++ tl.audio_file.getD "",
         "Length = " ++ tl.audio_length.getD ""]
      else ([] : List String)).filter isEventHeader
      = (if strTruthy tl.audio_file && strTruthy tl.audio_length
          then [("[Event_0]" : String)] else []) := by
    split
    · simp only [List.filter_cons, List.filter_nil,
        (show isEventHeader ("[Event_0]") = true by decide),
        (show isEventHeader ("TimeLineIndex = 2") = false by decide),
        (show isEventHeader ("StartTime = 0:00:00.0") = false by decide),
        isEventHeader_append_false (tl.audio_file.getD "") 'P' _ rfl (by decide),
        isEventHeader_append_false (tl.audio_length.getD "") 'L' _ rfl (by decide)]
      simp
    · rfl
  rw [haudio]
  simp only [List.nil_append]
  refine congrArg₂ _ rfl ?_
  refine List.map_congr_left ?_
  intro k _
  rw [Nat.add_comm 1 k]

/-- C2 counterexample: `_generate_events` draws from the module-level
`random` generator (never seeded), so two successive runs on the same
analysis and configuration share the advancing global RNG state: the
first run (state position 0) colors its wall flash `red` and leaves the
state at position 1; the second run, starting there, colors it `orange`.
The two event lists differ, refuting "two runs produce identical event
lists". -/
theorem C2_counterexample :
    Except.map (fun p => (Prod.fst p).map DMXEvent.path)
        (_generate_events demoGenerator demoAnalysis ⟨demoStream, 0⟩)
      = .ok ["LED_Walls/Walls_all/Walls_red.scex", "Bodovky/Bodovky_all/Bodovka_blue.scex"]
    ∧ Except.map (fun p => PyRandom.pos (Prod.snd p))
        (_generate_events demoGenerator demoAnalysis ⟨demoStream, 0⟩) = .ok 1
    ∧ Except.map (fun p => (Prod.fst p).map DMXEvent.path)
        (_generate_events demoGenerator demoAnalysis ⟨demoStream, 1⟩)
      = .ok ["LED_Walls/Walls_all/Walls_orange.scex", "Bodovky/Bodovky_all/Bodovka_blue.scex"]
    ∧ ("LED_Walls/Walls_all/Walls_red.scex" : String)
        ≠ "LED_Walls/Walls_all/Walls_orange.scex" :=
  ⟨by with_unfolding_all rfl, by with_unfolding_all rfl, by with_unfolding_all rfl,
    by decide⟩

/-- C2 amended: `_generate_events` is deterministic given identical
analysis input, configuration, and random-number-generator state — the
RNG stream and position are the only sources of run-to-run variation. -/
theorem C2_determinism (tg : TimelineGenerator) (a : AudioAnalysis) (r1 r2 : PyRandom)
    (hs : ∀ n, r1.stream n = r2.stream n) (hp : r1.pos = r2.pos) :
    _generate_events tg a r1 = _generate_events tg a r2 := by
  obtain ⟨s1, p1⟩ := r1
  obtain ⟨s2, p2⟩ := r2
  have hse : s1 = s2 := funext hs
  simp only at hp
  rw [hse, hp]

/-- Witness for `C2_determinism` at the demonstration inputs. -/
theorem C2_determinism_witness :
    _generate_events demoGenerator demoAnalysis ⟨demoStream, 0⟩
      = _generate_events demoGenerator demoAnalysis ⟨demoStream, 0⟩ :=
  C2_determinism demoGenerator demoAnalysis ⟨demoStream, 0⟩ ⟨demoStream, 0⟩
    (fun _ => rfl) rfl

/-- C1: the claim says the structural generator returns its candidate
list without raising for analyses containing verse or outro sections,
applying the documented verse/outro behaviors.  In fact the code calls
the undefined methods `_create_verse_lighting` / `_create_outro_sequence`
there, so every section list containing a section classified `verse` or
`outro` makes `_generate_structural_effects` raise (an `AttributeError`,
or an earlier construction error): the call never returns normally. -/
theorem C1_structural_crash (sections : List Section) (emotion : String)
    (hmem : ∃ sec ∈ sections, sec.type = "verse" ∨ sec.type = "outro") :
    ∃ msg, _generate_structural_effects sections emotion = .error msg := by
  induction sections with
  | nil => simp at hmem
  | cons sec rest ih =>
    obtain ⟨s, hs, hty⟩ := hmem
    rw [_generate_structural_effects]
    by_cases h1 : sec.type = "intro"
    · rw [if_pos h1]
      have hrest : ∃ x ∈ rest, x.type = "verse" ∨ x.type = "outro" := by
        rcases List.mem_cons.1 hs with rfl | hmem2
        · rcases hty with h | h <;> rw [h1] at h <;> exact absurd h (by decide)
        · exact ⟨s, hmem2, hty⟩
      obtain ⟨msg, hmsg⟩ := ih hrest
      cases hintro : _create_intro_sequence sec.start_time sec.duration emotion with
      | error e => exact ⟨e, by simp [hintro, Bind.bind, Except.bind]⟩
      | ok evs => exact ⟨msg, by simp [hintro, hmsg, Bind.bind, Except.bind]⟩
    · rw [if_neg h1]
      by_cases h2 : sec.type = "verse"
      · rw [if_pos h2]
        exact ⟨_, rfl⟩
      · rw [if_neg h2]
        by_cases h3 : sec.type = "chorus"
        · rw [if_pos h3]
          have hrest : ∃ x ∈ rest, x.type = "verse" ∨ x.type = "outro" := by
            rcases List.mem_cons.1 hs with rfl | hmem2
            · rcases hty with h | h
              · exact absurd h h2
              · rw [h3] at h
                exact absurd h (by decide)
            · exact ⟨s, hmem2, hty⟩
          obtain ⟨msg, hmsg⟩ := ih hrest
          cases hch : _create_chorus_explosion sec.start_time sec.duration sec.energy emotion with
          | error e => exact ⟨e, by simp [hch, Bind.bind, Except.bind]⟩
          | ok evs => exact ⟨msg, by simp [hch, hmsg, Bind.bind, Except.bind]⟩
        · rw [if_neg h3]
          by_cases h4 : sec.type = "outro"
          · rw [if_pos h4]
            exact ⟨_, rfl⟩
          · rw [if_neg h4]
            apply ih
            rcases List.mem_cons.1 hs with rfl | hmem2
            · rcases hty with h | h
              · exact absurd h h2
              · exact absurd h h4
            · exact ⟨s, hmem2, hty⟩

theorem mkDMXEvent_ok {e : DMXEvent} (h1 : validate_start_time e.start_time = true)
    (h2 : 1 ≤ e.speed ∧ e.speed ≤ 100) : mkDMXEvent e = .ok e := by
  rw [mkDMXEvent, if_neg (fun hc => hc h1), if_neg (fun hc => hc h2)]

theorem sustainLoop_eq_runs (times : ℕ → ℚ) (emotion : String)
    (mask : List Bool) :
    ∀ (i : ℕ) (cur : Option ℕ) (start : ℚ) (N : ℕ),
      N = i + mask.length →
      (∀ j, j < N → 0 ≤ times j ∧ times j < 86400) →
      (∀ s, cur = some s → start = times s ∧ s < i) →
      sustainLoop times emotion i cur.isSome start mask
        = .ok (((trueRunsAux i cur mask).filter fun r =>
              decide (r.2 < N) && decide ((2.0 : ℚ) < times r.2 - times r.1)).map
            fun r => sustainEvent emotion (times r.1) (times r.2 - times r.1)) := by
  induction mask with
  | nil =>
    intro i cur start N hN hb hstart
    cases cur with
    | none => rfl
    | some s =>
      have : ¬(s, i).2 < N := by simp at hN; omega
      simp only [trueRunsAux, Option.isSome, sustainLoop, List.filter_cons, List.filter_nil]
      rw [decide_eq_false this]
      rfl
  | cons b rest ih =>
    intro i cur start N hN hb hstart
    have hN' : N = (i + 1) + rest.length := by simp at hN; omega
    cases cur with
    | none =>
      cases b with
      | true =>
        show sustainLoop times emotion i false start (true :: rest) = _
        rw [sustainLoop, if_pos (by decide : ((true && !false) = true))]
        have := ih (i + 1) (some i) (times i) N hN' hb (fun s hs => by
          injection hs with hs2
          rw [← hs2]
          exact ⟨rfl, by omega⟩)
        simpa only [Option.isSome] using this
      | false =>
        show sustainLoop times emotion i false start (false :: rest) = _
        rw [sustainLoop, if_neg (by decide : ¬((false && !false) = true)),
          if_neg (by decide : ¬((!false && false) = true))]
        have := ih (i + 1) none start N hN' hb (fun s hs => by cases hs)
        simpa only [Option.isSome] using this
    | some s =>
      obtain ⟨hst, hslt⟩ := hstart s rfl
      cases b with
      | true =>
        show sustainLoop times emotion i true start (true :: rest) = _
        rw [sustainLoop, if_neg (by decide : ¬((true && !true) = true)),
          if_neg (by decide : ¬((!true && true) = true))]
        have := ih (i + 1) (some s) start N hN' hb (fun s2 hs => by
          injection hs with hs2
          rw [← hs2, hst]
          exact ⟨rfl, by omega⟩)
        simpa only [Option.isSome] using this
      | false =>
        show sustainLoop times emotion i true start (false :: rest) = _
        rw [sustainLoop, if_neg (by decide : ¬((false && !true) = true)),
          if_pos (by decide : ((!false && true) = true))]
        have hrec := ih (i + 1) none start N hN' hb (fun s2 hs => by cases hs)
        simp only [Option.isSome] at hrec
        rw [hrec, trueRunsAux]
        show (if times i - start > 2.0 then _ else _) = _
        rw [List.filter_cons]
        simp only [decide_eq_true (show i < N by omega), Bool.true_and]
        by_cases hd : times i - start > 2.0
        · rw [if_pos hd, hst] at *
          rw [decide_eq_true (show (2.0 : ℚ) < times i - times s by exact hd)]
          rw [mkDMXEvent_ok (by
            have hbs := hb s (by omega)
            exact validate_format_time_of_lt hbs.1 hbs.2) (by norm_num)]
          show Except.ok _ = Except.ok _
          rw [if_pos rfl, List.map_cons]
          simp [sustainEvent]
        · rw [if_neg hd, hst] at *
          rw [decide_eq_false (show ¬((2.0 : ℚ) < times i - times s) by exact hd)]
          show Except.ok _ = Except.ok _
          simp

/-- C8 amended: the dynamics generator emits exactly one slow
long-fade ambient event per maximal contiguous `true` run of the
sustain mask that is closed by a `false` sample and measures longer
than 2 s, with the run's start time and measured duration; shorter
closed runs, and any run still open at the end of the mask, produce no
event. -/
theorem C8_sustain_runs (duration : ℚ) (transients : List ℚ) (mask : List Bool)
    (emotion : String) (h0 : 0 ≤ duration) (h1 : duration < 86400) :
    _generate_dynamic_effects duration transients mask emotion
      = (transientsEvents transients).bind
          (fun tevs => .ok (tevs ++ sustainRunEvents duration mask emotion)) := by
  have hb : ∀ j, j < mask.length →
      0 ≤ linspace duration mask.length j ∧ linspace duration mask.length j < 86400 := by
    intro j hj
    rw [linspace]
    split
    · constructor <;> norm_num
    · rename_i hn
      push_neg at hn
      have hn1 : (0 : ℚ) < ((mask.length - 1 : ℕ) : ℚ) := by
        exact_mod_cast (by omega : 0 < mask.length - 1)
      constructor
      · exact div_nonneg (mul_nonneg h0 (by positivity)) (le_of_lt hn1)
      · have hjle : (j : ℚ) ≤ ((mask.length - 1 : ℕ) : ℚ) := by
          exact_mod_cast (by omega : j ≤ mask.length - 1)
        have hstep : duration * (j : ℚ) / ((mask.length - 1 : ℕ) : ℚ) ≤ duration := by
          rw [div_le_iff₀ hn1]
          calc duration * (j : ℚ) ≤ duration * ((mask.length - 1 : ℕ) : ℚ) :=
            mul_le_mul_of_nonneg_left hjle h0
          _ = duration * ((mask.length - 1 : ℕ) : ℚ) := rfl
        linarith
  have hloop := sustainLoop_eq_runs (fun k => linspace duration mask.length k) emotion
    mask 0 none 0 mask.length (by simp) hb (fun s hs => by cases hs)
  rw [_generate_dynamic_effects]
  cases ht : transientsEvents transients with
  | error e => simp [ht, Bind.bind, Except.bind]
  | ok tevs =>
    simp only [ht, Bind.bind, Except.bind]
    rw [show (none : Option ℕ).isSome = false from rfl] at hloop
    rw [hloop]
    simp only [sustainRunEvents, trueRuns]
    rfl

/-- C8 counterexample: the mask `[false, true, true, true, true]` over
a 10-second track has one maximal `true` run, measuring 7.5 s (> 2 s),
but the generator emits no ambient event for it: the loop only closes a
run on a `false` sample, so a run reaching the end of the mask is
dropped, contradicting "each maximal run longer than 2 s produces
exactly one event". -/
theorem C8_counterexample :
    _generate_dynamic_effects 10 [] [false, true, true, true, true] "melancholic" = .ok []
    ∧ trueRuns [false, true, true, true, true] = [(1, 5)]
    ∧ ((2.0 : ℚ) < linspace 10 5 4 - linspace 10 5 1) := by
  refine ⟨by with_unfolding_all rfl, by decide, ?_⟩
  rw [linspace, linspace]
  norm_num

/-- Witness for `C8_sustain_runs` on a closed one-sample run. -/
theorem C8_sustain_runs_witness :
    _generate_dynamic_effects 10 [] [false, true, false] "melancholic"
      = (transientsEvents []).bind
          (fun tevs => .ok (tevs ++ sustainRunEvents 10 [false, true, false] "melancholic")) :=
  C8_sustain_runs 10 [] [false, true, false] "melancholic" (by norm_num) (by norm_num)

theorem l1ChromaDiff_self (f : List ℚ) : l1ChromaDiff f f = 0 := by
  induction f with
  | nil => rfl
  | cons a as ih =>
    rw [l1ChromaDiff] at ih ⊢
    simp only [List.zip_cons_cons, List.map_cons, List.sum_cons, sub_self, abs_zero, ih]
    ring

theorem harmonicChange_all_zero (chroma : List (List ℚ))
    (hconst : ∀ f ∈ chroma, ∀ g ∈ chroma, f = g) :
    ∀ x ∈ harmonicChange chroma, x = 0 := by
  match chroma with
  | [] => intro x hx; cases hx
  | [f] => intro x hx; cases hx
  | f1 :: f2 :: rest =>
    intro x hx
    rw [harmonicChange] at hx
    rcases List.mem_cons.1 hx with rfl | hx2
    · rw [hconst f1 (by simp) f2 (by simp), l1ChromaDiff_self]
    · exact harmonicChange_all_zero (f2 :: rest)
        (fun f hf g hg =>
          hconst f (List.mem_cons_of_mem _ hf) g (List.mem_cons_of_mem _ hg)) x hx2

theorem getD_zero_of_all_zero {l : List ℚ} (h : ∀ x ∈ l, x = 0) (k : ℕ) :
    l.getD k 0 = 0 := by
  rw [List.getD_eq_getElem?_getD]
  cases hk : l[k]? with
  | none => rfl
  | some v =>
    have hv : v ∈ l := List.getElem?_mem hk
    simp [h v hv]

theorem npPercentile_all_zero (q : ℚ) (xs : List ℚ) (h : ∀ x ∈ xs, x = 0) :
    npPercentile q xs = 0 := by
  rw [npPercentile]
  have hmem : ∀ x ∈ xs.insertionSort (· ≤ ·), x = 0 := fun x hx =>
    h x ((List.perm_insertionSort _ xs).mem_iff.1 hx)
  split
  · rfl
  · simp only [getD_zero_of_all_zero hmem]
    ring

theorem mkDMXEvent_ok_eq {x y : DMXEvent} (h : mkDMXEvent x = .ok y) : y = x := by
  rw [mkDMXEvent] at h
  split at h
  · cases h
  · split at h
    · cases h
    · injection h with h2
      exact h2.symm

theorem harmonicLoop_sound (times : ℕ → ℚ) (hc : List ℚ) (emotion : String)
    (tlen : ℕ) (idxs : List ℕ) :
    ∀ evs, harmonicLoop times hc emotion tlen idxs = .ok evs →
      ∀ e ∈ evs, ∃ idx, idx < tlen ∧ hc.getD idx 0 > npPercentile 95 hc
        ∧ e.start_time = format_time (times idx) := by
  induction idxs with
  | nil =>
    intro evs hevs e he
    rw [harmonicLoop] at hevs
    injection hevs with h2
    rw [← h2] at he
    cases he
  | cons idx rest ih =>
    intro evs hevs e he
    simp only [harmonicLoop] at hevs
    by_cases hge : idx ≥ tlen
    · rw [if_pos hge] at hevs
      exact ih evs hevs e he
    · rw [if_neg hge] at hevs
      by_cases hmag : hc.getD idx 0 > npPercentile 95 hc
      · rw [if_pos hmag] at hevs
        cases hmk : mkDMXEvent
            { timeline_index := 7
              start_time := format_time (times idx)
              path := "LED_walls/Walls_all/Walls_" ++ _select_emotion_color emotion
                ++ ".scex"
              length := some "0:00:03.0"
              speed := 50
              speed_type := .percentage
              fade_in := some 500
              fade_out := some 500 } with
        | error msg =>
          rw [hmk] at hevs
          simp [Bind.bind, Except.bind] at hevs
        | ok y =>
          rw [hmk] at hevs
          cases hrec : harmonicLoop times hc emotion tlen rest with
          | error msg2 =>
            rw [hrec] at hevs
            simp [Bind.bind, Except.bind] at hevs
          | ok more =>
            rw [hrec] at hevs
            simp only [Bind.bind, Except.bind, Option.pure_def] at hevs
            injection hevs with h2
            rw [← h2] at he
            rcases List.mem_cons.1 he with rfl | hmore
            · refine ⟨idx, by omega, hmag, ?_⟩
              rw [mkDMXEvent_ok_eq hmk]
            · exact ih more hrec e hmore
      · rw [if_neg hmag] at hevs
        exact ih evs hevs e he

/-- C9: a chroma matrix constant across all frames yields zero
whole-rig color-change events, and in general every emitted event
corresponds to a frame-to-frame change strictly above the 95th
percentile of the harmonic-change signal. -/
theorem C9_harmonic_gate (duration : ℚ) (chroma : List (List ℚ)) (emotion : String) :
    ((∀ f ∈ chroma, ∀ g ∈ chroma, f = g) →
      _generate_harmonic_effects duration chroma emotion = .ok [])
    ∧ ∀ evs, _generate_harmonic_effects duration chroma emotion = .ok evs →
        ∀ e ∈ evs, ∃ idx, idx < (harmonicChange chroma).length
          ∧ (harmonicChange chroma).getD idx 0 > npPercentile 95 (harmonicChange chroma)
          ∧ e.start_time = format_time
              (linspace duration (harmonicChange chroma).length idx) := by
  constructor
  · intro hconst
    have hz := harmonicChange_all_zero chroma hconst
    have hthr : npPercentile 85 (harmonicChange chroma) = 0 :=
      npPercentile_all_zero _ _ hz
    have hfil : (List.range (harmonicChange chroma).length).filter
        (fun j => decide ((harmonicChange chroma).getD j 0
          > npPercentile 85 (harmonicChange chroma))) = [] := by
      rw [List.filter_eq_nil_iff]
      intro j hj
      rw [hthr, getD_zero_of_all_zero hz j]
      simp
    rw [_generate_harmonic_effects]
    split
    · simp only [hfil, harmonicLoop]
    · rfl
  · intro evs hevs e he
    by_cases hlen : chroma.length > 1
    · simp only [_generate_harmonic_effects, if_pos hlen] at hevs
      exact harmonicLoop_sound _ _ _ _ _ evs hevs e he
    · simp only [_generate_harmonic_effects, if_neg hlen] at hevs
      injection hevs with h2
      rw [← h2] at he
      cases he

/-- Witness for `C9_harmonic_gate`: three identical chroma frames
produce no events. -/
theorem C9_harmonic_gate_witness :
    _generate_harmonic_effects 10 [[1, 0], [1, 0], [1, 0]] "melancholic" = .ok [] :=
  (C9_harmonic_gate 10 [[1, 0], [1, 0], [1, 0]] "melancholic").1 (by decide)

/-- Witness for `C1_structural_crash`: a single verse section crashes
the structural generator. -/
theorem C1_structural_crash_witness :
    ∃ msg, _generate_structural_effects
      [{ start_time := 0, end_time := 10, duration := 10, type := "verse",
         energy := 1/2, brightness := 1/2 }] "melancholic" = .error msg :=
  C1_structural_crash _ "melancholic"
    ⟨{ start_time := 0, end_time := 10, duration := 10, type := "verse",
       energy := 1/2, brightness := 1/2 }, by simp, Or.inl rfl⟩

theorem npPercentile_singleton (q x : ℚ) : npPercentile q [x] = x := by
  rw [npPercentile]
  show (if (1 : ℕ) = 0 then _ else _) = x
  rw [if_neg (by omega)]
  norm_num

theorem filterMap_eq_map_of_some {α β : Type} {f : α → Option β} {g : α → β} :
    ∀ (l : List α), (∀ a ∈ l, f a = some (g a)) → l.filterMap f = l.map g := by
  intro l
  induction l with
  | nil => intro _; rfl
  | cons a as ih =>
    intro h
    rw [List.filterMap_cons, h a (by simp), List.map_cons,
      ih fun x hx => h x (List.mem_cons_of_mem a hx)]

theorem classify_sections_eq_map (rmsF centroidF : List ℚ → List ℚ) (y : List ℚ)
    (sr : ℚ) (boundary_times : List ℚ)
    (hseg : ∀ i, i < boundary_times.length - 1 →
      (sectionSegment y sr boundary_times i).isEmpty = false) :
    _classify_sections rmsF centroidF y sr boundary_times
      = (List.range (boundary_times.length - 1)).map
          (classifySection rmsF centroidF y sr boundary_times) := by
  rw [_classify_sections]
  apply filterMap_eq_map_of_some
  intro i hi
  rw [List.mem_range] at hi
  have hne := hseg i hi
  rw [sectionSegment] at hne
  simp only [hne, Bool.false_eq_true, if_false, classifySection, sectionSegment]

/-- C7 amended: with at least two boundaries and every segment
nonempty, `_classify_sections` labels section 0 `intro`, the last
section `outro`, and a middle section `chorus` exactly when its segment
mean RMS exceeds the whole-track mean RMS — the code's threshold
`np.percentile([np.mean(rms(y))], 75)` is the percentile of a
one-element list and collapses to the mean, not the 75th percentile of
the whole-track RMS distribution the claim names. -/
theorem C7_classification (rmsF centroidF : List ℚ → List ℚ) (y : List ℚ) (sr : ℚ)
    (boundary_times : List ℚ) (_hlen : 2 ≤ boundary_times.length)
    (hseg : ∀ i, i < boundary_times.length - 1 →
      (sectionSegment y sr boundary_times i).isEmpty = false) :
    (_classify_sections rmsF centroidF y sr boundary_times).length
        = boundary_times.length - 1
    ∧ ∀ i, i < boundary_times.length - 1 →
        ((_classify_sections rmsF centroidF y sr boundary_times).getD i default).type
          = (if i = 0 then "intro"
             else if i = boundary_times.length - 2 then "outro"
             else if npMean (rmsF (sectionSegment y sr boundary_times i))
                 > npMean (rmsF y) then "chorus"
             else "verse") := by
  rw [classify_sections_eq_map rmsF centroidF y sr boundary_times hseg]
  constructor
  · rw [List.length_map, List.length_range]
  · intro i hi
    have hget : ((List.range (boundary_times.length - 1)).map
        (classifySection rmsF centroidF y sr boundary_times)).getD i default
        = classifySection rmsF centroidF y sr boundary_times i := by
      rw [List.getD_eq_getElem?_getD, List.getElem?_map, List.getElem?_range hi]
      rfl
    rw [hget, classifySection, npPercentile_singleton]

/-- C7 counterexample: section 1's RMS (4/5) does not exceed the 75th
percentile (1) of the whole-track RMS distribution `[0, 1, 1, 1]`, so
the claim predicts `verse`; the code classifies it `chorus` because its
threshold is the whole-track mean 3/4 (the 75th percentile of the
singleton `[np.mean(rms(y))]`), and 4/5 > 3/4. -/
theorem C7_counterexample :
    ((_classify_sections demoRmsF demoCentroidF [1, 2, 3] 1 [0, 1, 2, 3]).getD 1
        default).type = "chorus"
    ∧ npPercentile 75 (demoRmsF [1, 2, 3]) = 1
    ∧ ((_classify_sections demoRmsF demoCentroidF [1, 2, 3] 1 [0, 1, 2, 3]).getD 1
        default).energy = 4 / 5
    ∧ ¬((4 : ℚ) / 5 > 1) := by
  refine ⟨by with_unfolding_all rfl, by with_unfolding_all rfl,
    by with_unfolding_all rfl, by norm_num⟩

/-- Witness for `C7_classification`, realizing the spec's example: four
sections with RMS energies `[0.1, 0.9, 0.2, 0.1]` and whole-track mean
RMS 0.3 classify as intro, chorus, verse, outro. -/
theorem C7_classification_witness :
    (_classify_sections demoRmsF2 demoCentroidF [1, 2, 3, 4] 1 [0, 1, 2, 3, 4]).length = 4
    ∧ (_classify_sections demoRmsF2 demoCentroidF [1, 2, 3, 4] 1
        [0, 1, 2, 3, 4]).map Section.type = ["intro", "chorus", "verse", "outro"]
    ∧ (_classify_sections demoRmsF2 demoCentroidF [1, 2, 3, 4] 1
        [0, 1, 2, 3, 4]).map Section.energy = [1 / 10, 9 / 10, 2 / 10, 1 / 10] := by
  refine ⟨?_, by with_unfolding_all rfl, by with_unfolding_all rfl⟩
  exact (C7_classification demoRmsF2 demoCentroidF [1, 2, 3, 4] 1 [0, 1, 2, 3, 4]
    (by norm_num) (by
      intro i hi
      have hi4 : i < 4 := by simpa using hi
      interval_cases i <;> with_unfolding_all rfl)).1

end DMX
